import Mathlib

/-!
# bc::ds::array, its iterators, bc::tuple, and the type-level utilities

A shallow embedding of `src/array.h`, `src/bc_tuple.h`, `src/bc_type_traits.h`
and `src/bc_type_list.h`, followed by the properties of the natural-language
specification that were checked against it.

Conventions of the embedding

* `size_t` is a `Nat` below `2 ^ 64`, `ptrdiff_t` an `Int` in
  `[-2 ^ 63, 2 ^ 63)`; every arithmetic step of the source that can wrap is
  written with an explicit reduction modulo `2 ^ 64`.
* A pointer is an address (`Nat`, counted in elements); `0` is the null pointer.
  A reference is the address of the object it designates.
* `throw std::exception(msg)` is `Except.error`, one constructor of `Exn` per
  message text of the source.
* A `const` member function is a function of `*this`; a member function that
  may modify `*this` returns its result together with the state of `*this`
  after the call (also when the call throws).
* A metafunction is a function on `CppType`, or on the list of its template
  arguments; its result is an `Option` where an instantiation can be ill-formed
  (no member `type` or `result`, or an ambiguous specialisation), and each
  clause stands for one primary template or partial specialisation.
* A member function or call whose body compiles for some template arguments
  only takes the element type as a `CppType` and returns an `Option`, `none`
  where it is ill-formed.
-/

namespace bc

universe u

/-! ## Definitions: C++ types -/

/-- The C++ types that the metafunctions are instantiated with: an object type
known by its name, the class templates `type_list<Types...>` and
`reference_wrapper<T>` of this library, a const-qualified type `const T`, and
the reference types `T&` and `T&&`. -/
inductive CppType where
  | named (name : String)
  | type_list (Types : List CppType)
  | reference_wrapper (T : CppType)
  | const (T : CppType)
  | lref (T : CppType)
  | rref (T : CppType)

namespace CppType

/-- The type written `const T` for a template parameter `T`: a const on a
reference type is ignored and a second const changes nothing. -/
def add_const_qualifier : CppType → CppType
  | .const T => .const T
  | .lref T => .lref T
  | .rref T => .rref T
  | T => .const T

/-- The type written `T&` for a template parameter `T`, with reference
collapsing: both `U& &` and `U&& &` are `U&`. -/
def add_lvalue_ref : CppType → CppType
  | .lref T => .lref T
  | .rref T => .lref T
  | T => .lref T

/-- Whether the type is a reference type `U&` or `U&&`. -/
def is_reference : CppType → Bool
  | .lref _ => true
  | .rref _ => true
  | _ => false

/-- Whether the type is const-qualified at the top level, `const U`. -/
def is_const_qualified : CppType → Bool
  | .const _ => true
  | _ => false

/-- Whether the type is an instance `type_list<Types...>`. -/
def is_type_list : CppType → Bool
  | .type_list _ => true
  | _ => false

/-- Whether the type is a reference through which the object referred to can
be modified: `U&` or `U&&` with `U` not const. -/
def is_mutable_reference : CppType → Bool
  | .lref U => !U.is_const_qualified
  | .rref U => !U.is_const_qualified
  | _ => false

/-- Whether the type is a read-only reference: `const U&` or `const U&&`. -/
def is_const_reference : CppType → Bool
  | .lref U => U.is_const_qualified
  | .rref U => U.is_const_qualified
  | _ => false

end CppType

namespace ds

/-! ## Definitions: exceptions and machine integers -/

/-- The exceptions thrown by `array.h`, one constructor per message text. -/
inductive Exn where
  /-- Message: "Underlying pointer can not be null." -/
  | null_pointer
  /-- Message: "can not deference out of range." -/
  | deref_out_of_range
  /-- Message: "can not reach an array iterator before begin" -/
  | before_begin
  /-- Message: "can not reach an array iterator after end." -/
  | after_end
  /-- Message: "internal pointer types are different" -/
  | different_pointers
  /-- Message: "index is out of range" -/
  | index_out_of_range
  deriving DecidableEq, Repr

/-- The error kinds of the specification (section 7). -/
inductive ErrorKind where
  | IndexOutOfRange
  | NullStorage
  | OffsetOutOfRange
  | IncompatibleIterators
  deriving DecidableEq, Repr

/-- The error kind that each exception of the source stands for. -/
def Exn.kind : Exn → ErrorKind
  | .null_pointer => .NullStorage
  | .deref_out_of_range => .IndexOutOfRange
  | .before_begin => .OffsetOutOfRange
  | .after_end => .OffsetOutOfRange
  | .different_pointers => .IncompatibleIterators
  | .index_out_of_range => .IndexOutOfRange

deriving instance DecidableEq for Except

/-- Number of values of `size_t` (64-bit). -/
def size_t_card : Nat := 2 ^ 64

/-- Largest value of `ptrdiff_t` plus one (64-bit, two's complement). -/
def diff_type_bound : Nat := 2 ^ 63

/-- Conversion `static_cast<size_t>(x)` of a signed value. -/
def to_size_t (x : Int) : Nat := (x % (size_t_card : Int)).toNat

/-- Conversion `static_cast<diff_type>(x)` of an unsigned value. -/
def to_diff_type (x : Nat) : Int :=
  if x % size_t_card < diff_type_bound then ((x % size_t_card : Nat) : Int)
  else ((x % size_t_card : Nat) : Int) - (size_t_card : Int)

/-- Unary minus on `size_t`. -/
def size_neg (x : Nat) : Nat := (size_t_card - x % size_t_card) % size_t_card

/-- Addition on `size_t`. -/
def size_add (x y : Nat) : Nat := (x + y) % size_t_card

/-- Subtraction on `size_t`. -/
def size_sub (x y : Nat) : Nat := (x + size_neg y) % size_t_card

/-- Unary minus on `diff_type`; the one value without a representable
negation, `-2 ^ 63`, is mapped to itself as on two's complement hardware. -/
def diff_neg (x : Int) : Int := to_diff_type (to_size_t (-x))

/-! ## Definitions: `array_const_iterator<T, Size>` -/

/-- The data members of `array_const_iterator<T, Size>`: the storage pointer
`ptr_` and the position `index_`. -/
structure array_const_iterator (Size : Nat) where
  ptr_ : Nat
  index_ : Nat
  deriving DecidableEq, Repr

namespace array_const_iterator

variable {Size : Nat}

/-- Default constructor `array_const_iterator() : ptr_(), index_(0)`. -/
def default : array_const_iterator Size := ⟨0, 0⟩

/-- Constructor `array_const_iterator(pointer ptr, size_t offset = 0)`. -/
def mk_at (ptr : Nat) (offset : Nat) : array_const_iterator Size := ⟨ptr, offset⟩

/-- Member `operator->() const`: the address `ptr_ + index_`. -/
def operator_arrow (it : array_const_iterator Size) : Except Exn Nat :=
  if it.ptr_ = 0 then .error .null_pointer
  else if it.index_ ≥ Size then .error .deref_out_of_range
  else .ok (it.ptr_ + it.index_)

/-- Member `operator*() const`: `*operator->()`, the reference to the object
at the address that `operator->` returns. -/
def operator_star (it : array_const_iterator Size) : Except Exn Nat :=
  match it.operator_arrow with
  | .error e => .error e
  | .ok p => .ok p

/-- Member `operator++()`, the pre-increment. -/
def operator_preinc (it : array_const_iterator Size) :
    Except Exn Unit × array_const_iterator Size :=
  if it.ptr_ = 0 then (.error .null_pointer, it)
  else if it.index_ ≥ Size then (.error .deref_out_of_range, it)
  else (.ok (), { it with index_ := size_add it.index_ 1 })

/-- Member `operator++(int)`, the post-increment: copies `*this`, increments
`*this`, returns the copy. -/
def operator_postinc (it : array_const_iterator Size) :
    Except Exn (array_const_iterator Size) × array_const_iterator Size :=
  let temp := it
  match it.operator_preinc with
  | (.error e, it1) => (.error e, it1)
  | (.ok _, it1) => (.ok temp, it1)

/-- Member `operator--()`, the pre-decrement. -/
def operator_predec (it : array_const_iterator Size) :
    Except Exn Unit × array_const_iterator Size :=
  if it.ptr_ = 0 then (.error .null_pointer, it)
  else if it.index_ = 0 then (.error .deref_out_of_range, it)
  else (.ok (), { it with index_ := size_sub it.index_ 1 })

/-- Member `operator--(int)`, the post-decrement. -/
def operator_postdec (it : array_const_iterator Size) :
    Except Exn (array_const_iterator Size) × array_const_iterator Size :=
  let temp := it
  match it.operator_predec with
  | (.error e, it1) => (.error e, it1)
  | (.ok _, it1) => (.ok temp, it1)

/-- Private member `verify_offset(const diff_type offset) const`. -/
def verify_offset (it : array_const_iterator Size) (offset : Int) : Except Exn Unit :=
  if it.ptr_ = 0 then .error .null_pointer
  else if offset < 0 ∧ it.index_ < size_neg (to_size_t offset) then .error .before_begin
  else if offset > 0 ∧ size_sub Size it.index_ > to_size_t offset then .error .after_end
  else .ok ()

/-- Member `operator+=(const diff_type offset)`. -/
def operator_plus_assign (it : array_const_iterator Size) (offset : Int) :
    Except Exn Unit × array_const_iterator Size :=
  match it.verify_offset offset with
  | .error e => (.error e, it)
  | .ok _ => (.ok (), { it with index_ := size_add it.index_ (to_size_t offset) })

/-- Member `operator+(const diff_type offset) const`. -/
def operator_plus (it : array_const_iterator Size) (offset : Int) :
    Except Exn (array_const_iterator Size) :=
  let temp := it
  match temp.operator_plus_assign offset with
  | (.error e, _) => .error e
  | (.ok _, temp1) => .ok temp1

/-- Member `operator-=(const diff_type offset)`: `*this += -offset`. -/
def operator_minus_assign (it : array_const_iterator Size) (offset : Int) :
    Except Exn Unit × array_const_iterator Size :=
  it.operator_plus_assign (diff_neg offset)

/-- Member `operator-(const diff_type offset) const`. -/
def operator_minus (it : array_const_iterator Size) (offset : Int) :
    Except Exn (array_const_iterator Size) :=
  let temp := it
  match temp.operator_minus_assign offset with
  | (.error e, _) => .error e
  | (.ok _, temp1) => .ok temp1

/-- Private member `verify_compatibility(value_type* ptr) const`. -/
def verify_compatibility (it : array_const_iterator Size) (ptr : Nat) : Except Exn Unit :=
  if it.ptr_ ≠ ptr then .error .different_pointers else .ok ()

/-- Whether the call `verify_compatibility(rhs.ptr_)` is well-formed in
`array_const_iterator<T, Size>`. The argument `rhs.ptr_` has the type `pointer`,
which is `const T*`; the parameter has the type `value_type*`, which is `T*`. A
pointer conversion can add const to the type pointed to but cannot remove it,
so the call compiles exactly when `const T` and `T` are the same type, that is
when `T` is const-qualified. -/
def verify_compatibility_call_ok (T : CppType) : Bool := T.is_const_qualified

/-- Member `operator-(const array_const_iterator& rhs) const` of
`array_const_iterator<T, Size>`, the iterator difference; `none` where the
member does not compile. -/
def operator_diff (T : CppType) (it rhs : array_const_iterator Size) :
    Option (Except Exn Int) :=
  if verify_compatibility_call_ok T then
    some (match it.verify_compatibility rhs.ptr_ with
      | .error e => .error e
      | .ok _ => .ok (to_diff_type (size_sub it.index_ rhs.index_)))
  else none

/-- Member `operator[](const ptrdiff_t offset) const`: `*(*this + offset)`. -/
def operator_index (it : array_const_iterator Size) (offset : Int) : Except Exn Nat :=
  match it.operator_plus offset with
  | .error e => .error e
  | .ok next => next.operator_star

/-- Member `operator==` of `array_const_iterator<T, Size>`; `none` where the
member does not compile. -/
def operator_eq (T : CppType) (it rhs : array_const_iterator Size) :
    Option (Except Exn Bool) :=
  if verify_compatibility_call_ok T then
    some (match it.verify_compatibility rhs.ptr_ with
      | .error e => .error e
      | .ok _ => .ok (decide (it.index_ = rhs.index_)))
  else none

/-- Member `operator!=`: `!(*this == rhs)`. -/
def operator_ne (T : CppType) (it rhs : array_const_iterator Size) :
    Option (Except Exn Bool) :=
  match it.operator_eq T rhs with
  | none => none
  | some (.error e) => some (.error e)
  | some (.ok b) => some (.ok (!b))

/-- Member `operator<` of `array_const_iterator<T, Size>`; `none` where the
member does not compile. -/
def operator_lt (T : CppType) (it rhs : array_const_iterator Size) :
    Option (Except Exn Bool) :=
  if verify_compatibility_call_ok T then
    some (match it.verify_compatibility rhs.ptr_ with
      | .error e => .error e
      | .ok _ => .ok (decide (it.index_ < rhs.index_)))
  else none

/-- Member `operator>`: `rhs < *this`. -/
def operator_gt (T : CppType) (it rhs : array_const_iterator Size) :
    Option (Except Exn Bool) :=
  rhs.operator_lt T it

/-- Member `operator<=`: `!(rhs < *this)`. -/
def operator_le (T : CppType) (it rhs : array_const_iterator Size) :
    Option (Except Exn Bool) :=
  match rhs.operator_lt T it with
  | none => none
  | some (.error e) => some (.error e)
  | some (.ok b) => some (.ok (!b))

/-- Member `operator>=`: `!(*this < rhs)`. -/
def operator_ge (T : CppType) (it rhs : array_const_iterator Size) :
    Option (Except Exn Bool) :=
  match it.operator_lt T rhs with
  | none => none
  | some (.error e) => some (.error e)
  | some (.ok b) => some (.ok (!b))

/-- Applies the pre-increment `n` times in a row, stopping at the first one
that throws (the loop `for (k = 0; k < n; ++k) ++it;`). -/
def increment_times : Nat → array_const_iterator Size →
    Except Exn Unit × array_const_iterator Size
  | 0, it => (.ok (), it)
  | n + 1, it =>
    match it.operator_preinc with
    | (.error e, it1) => (.error e, it1)
    | (.ok _, it1) => increment_times n it1

end array_const_iterator

/-- Free function `operator+(const ptrdiff_t offset, array_const_iterator next)`:
`next += offset` on the by-value parameter. -/
def operator_plus_left {Size : Nat} (offset : Int) (next : array_const_iterator Size) :
    Except Exn (array_const_iterator Size) :=
  match next.operator_plus_assign offset with
  | (.error e, _) => .error e
  | (.ok _, next1) => .ok next1

/-! ## Definitions: `array<T, Size>` -/

/-- The object `array<T, Size>`: the member `T elements_[Size]`, given by the
address `storage` of its first element (what `elements_` decays to; never
null) and its `Size` stored values. -/
structure array (T : Type) (Size : Nat) where
  storage : Nat
  elements_ : List T
  storage_ne_null : storage ≠ 0
  length_eq : elements_.length = Size

namespace array

variable {T : Type} {Size : Nat}

/-- The value stored at address `p`, when `p` designates an element of the
array (memory read through a reference or pointer into `elements_`). -/
def load (a : array T Size) (p : Nat) : Option T :=
  if a.storage ≤ p ∧ p < a.storage + Size then a.elements_[p - a.storage]? else none

/-- Member `size() const`. -/
def size (_a : array T Size) : Nat := Size

/-- Member `begin() const`: `const_iterator(elements_, 0)`. -/
def begin_const (a : array T Size) : array_const_iterator Size :=
  array_const_iterator.mk_at a.storage 0

/-- Member `end() const`: `const_iterator(elements_, Size)`. -/
def end_const (a : array T Size) : array_const_iterator Size :=
  array_const_iterator.mk_at a.storage Size

/-- Member `cbegin() const`: `begin()`. -/
def cbegin (a : array T Size) : array_const_iterator Size := a.begin_const

/-- Member `cend() const`: `end()`. -/
def cend (a : array T Size) : array_const_iterator Size := a.end_const

/-- Member `at(size_type index)`, non-const overload: returns the reference
`elements_[index]` and the array after the call. -/
def «at» (a : array T Size) (index : Nat) : Except Exn Nat × array T Size :=
  if Size ≤ index then (.error .index_out_of_range, a)
  else (.ok (a.storage + index), a)

/-- Member `at(size_type index) const`. -/
def at_const (a : array T Size) (index : Nat) : Except Exn Nat :=
  if Size ≤ index then .error .index_out_of_range
  else .ok (a.storage + index)

/-- Member `operator[](size_type index)`, non-const overload. -/
def operator_index (a : array T Size) (index : Nat) : Except Exn Nat × array T Size :=
  if Size ≤ index then (.error .index_out_of_range, a)
  else (.ok (a.storage + index), a)

/-- Member `operator[](size_type index) const`. -/
def operator_index_const (a : array T Size) (index : Nat) : Except Exn Nat :=
  if Size ≤ index then .error .index_out_of_range
  else .ok (a.storage + index)

end array

/-- The array `array<int, 3>` holding 10, 20, 30 at address 100. -/
def sample_array : array Int 3 := ⟨100, [10, 20, 30], by decide, rfl⟩

/-- A second `array<int, 3>`, at address 200. -/
def other_array : array Int 3 := ⟨200, [10, 20, 30], by decide, rfl⟩



end ds

/-! ## Definitions: `tuple<Types...>` -/

/-- Metafunction `tuple_element<index, tuple<Types...>>`: the member `type`, where
a specialisation defines one. The specialisation for index 0 yields `Head`, the
one for any other index refers to `tuple_element<index - 1, tuple<Tail...>>`;
`tuple<>` has no specialisation, hence no member `type` (`none`). -/
def tuple_element {α : Type u} : Nat → List α → Option α
  | _, [] => none
  | 0, Head :: _ => some Head
  | index + 1, _ :: Tail => tuple_element index Tail

/-- Metafunction `tuple_size<tuple<Types...>>`: `sizeof...(Types)`. -/
def tuple_size {α : Type u} (Types : List α) : Nat := Types.length

/-- Class template `tuple`: `tuple<>` is empty, `tuple<Head, Tail...>` holds the
member `m_head` and, as its base class `inherited`, a `tuple<Tail...>`. -/
inductive tuple : List Type → Type 1 where
  | nil : tuple []
  | cons {Head : Type} {Tail : List Type} (m_head : Head) (inherited : tuple Tail) :
      tuple (Head :: Tail)

namespace tuple

/-- Member `head()`: `m_head`. -/
def head {Head : Type} {Tail : List Type} : tuple (Head :: Tail) → Head
  | .cons m_head _ => m_head

/-- Member `tail()`: `*this` as its base class `inherited`. -/
def tail {Head : Type} {Tail : List Type} : tuple (Head :: Tail) → tuple Tail
  | .cons _ inherited => inherited

/-- The type `tuple_element<Index, tuple<Types...>>::type`, for an `Index` at
which that member exists. -/
abbrev element (Index : Nat) (Types : List Type)
    (h : (tuple_element Index Types).isSome) : Type :=
  (tuple_element Index Types).get h

/-- Constructor `tuple(v, v_tail...) : m_head(v), inherited(v_tail...)`. The
argument pack is the family `v`, with `v 0` the first argument and
`fun i => v (i + 1)` the pack `v_tail...`. -/
def construct : (Types : List Type) →
    ((i : Nat) → (h : (tuple_element i Types).isSome) → element i Types h) → tuple Types
  | [], _ => .nil
  | _ :: Tail, v => .cons (v 0 rfl) (construct Tail (fun i h => v (i + 1) h))

end tuple

/-- What the element types `S` (source) and `D` (destination) provide for the
two statements `m_head(other.head())` and `m_head = other.head()`: the value
`init s` of a `D` initialised from `s`, and the value `assign d s` that a `D`
holding `d` has after `s` is assigned to it. -/
structure element_conversion (S D : Type) where
  init : S → D
  assign : D → S → D

/-- One `element_conversion` per position, from the element types `Ss` of
`tuple<OtherTypes...>` to the element types `Ds` of the tuple constructed or
assigned to; the two packs have the same length. -/
inductive conversions : List Type → List Type → Type 1 where
  | nil : conversions [] []
  | cons {S D : Type} {Ss Ds : List Type} (c : element_conversion S D)
      (cs : conversions Ss Ds) : conversions (S :: Ss) (D :: Ds)

namespace conversions

/-- The conversion at position `i`. -/
def position : {Ss Ds : List Type} → conversions Ss Ds → (i : Nat) →
    (hs : (tuple_element i Ss).isSome) → (hd : (tuple_element i Ds).isSome) →
    element_conversion (tuple.element i Ss hs) (tuple.element i Ds hd)
  | _, _, .cons c _, 0, _, _ => c
  | _, _, .cons _ cs, i + 1, hs, hd => position cs i hs hd
  | _, _, .nil, 0, hs, _ => nomatch hs
  | _, _, .nil, _ + 1, hs, _ => nomatch hs

/-- Every element type is convertible in the sense that assigning a source value
stores its conversion (as for `long` from `int`, `double` from `float`,
`std::string` from `const char*`). -/
def value_semantic : {Ss Ds : List Type} → conversions Ss Ds → Prop
  | _, _, .nil => True
  | _, _, .cons c cs => (∀ d s, c.assign d s = c.init s) ∧ value_semantic cs

end conversions

namespace tuple

/-- Constructor template `tuple(const tuple<OtherTypes...>& other) :
m_head(other.head()), inherited(other.tail())`. -/
def construct_from : {Ss Ds : List Type} → conversions Ss Ds → tuple Ss → tuple Ds
  | _, _, .nil, _ => .nil
  | _, _, .cons c cs, other => .cons (c.init other.head) (construct_from cs other.tail)

/-- Member template `operator=(const tuple<OtherTypes...>& other)`:
`m_head = other.head(); tail() = other.tail();`. The result is `*this` after the
assignment. -/
def operator_assign : {Ss Ds : List Type} → conversions Ss Ds → tuple Ds → tuple Ss →
    tuple Ds
  | _, _, .nil, this, _ => this
  | _, _, .cons c cs, this, other =>
    .cons (c.assign this.head other.head) (operator_assign cs this.tail other.tail)

end tuple

namespace impl

/-- Class template `impl::get_impl<Index, tuple<Head, Tail...>>`, member `get`:
the specialisation for index 0 returns `t.head()`, the one for any other index
returns `Next::get(t.tail())` with `Next = get_impl<Index - 1, tuple<Tail...>>`. -/
def get_impl : (Index : Nat) → {Types : List Type} → tuple Types →
    (h : (tuple_element Index Types).isSome) → tuple.element Index Types h
  | 0, _ :: _, t, _ => t.head
  | Index + 1, _ :: _, t, h => get_impl Index t.tail h

end impl

/-- Function template `get<Index>(t)`: `impl::get_impl<Index, tuple<Types...>>::get(t)`.
It is well-formed only where `tuple_element<Index, tuple<Types...>>::type` exists. -/
def get (Index : Nat) {Types : List Type} (t : tuple Types)
    (h : (tuple_element Index Types).isSome) : tuple.element Index Types h :=
  impl.get_impl Index t h

/-- The element types of `tuple<int, float, const char*>`: an `int` is an `Int`,
a finite `float` is the rational it denotes, a `const char*` is the character
sequence it points to. -/
abbrev t3a_types : List Type := [Int, Rat, List Char]

/-- The arguments `1, 3.14159f, "Hello, world!"` of `t3a` in `main.cpp`; the value
of the literal `3.14159f` is `823549 / 2 ^ 18`. -/
def t3a_values : (i : Nat) → (h : (tuple_element i t3a_types).isSome) →
    tuple.element i t3a_types h
  | 0, _ => (1 : Int)
  | 1, _ => (823549 / 262144 : Rat)
  | 2, _ => "Hello, world!".toList
  | 3, h => nomatch h
  | _ + 4, h => nomatch h

/-- The tuple `t3a` of `main.cpp`. -/
def t3a : tuple t3a_types := tuple.construct t3a_types t3a_values

/-- The element types of `tuple<long, double, std::string>`. -/
abbrev t3b_types : List Type := [Int, Rat, String]

/-- The conversions `int` to `long`, `float` to `double` (both keep the value)
and `const char*` to `std::string` (copies the characters). -/
def t3b_conversions : conversions t3a_types t3b_types :=
  .cons ⟨fun s => s, fun _ s => s⟩
    (.cons ⟨fun s => s, fun _ s => s⟩
      (.cons ⟨fun s => String.mk s, fun _ s => String.mk s⟩ .nil))

/-- The tuple `t3b` of `main.cpp`: `tuple<long, double, std::string> t3b(t3a)`. -/
def t3b : tuple t3b_types := tuple.construct_from t3b_conversions t3a

/-! ## Definitions: `array_iterator<T, Size>` -/

namespace ds

/-- Class `array_iterator<T, Size>`: derives publicly from
`array_const_iterator<T, Size>` (`theBase`) and declares no data member. -/
structure array_iterator (Size : Nat) where
  theBase : array_const_iterator Size
  deriving DecidableEq, Repr

namespace array_iterator

variable {Size : Nat}

/-- Default constructor `array_iterator() : theBase()`. -/
def default : array_iterator Size := ⟨array_const_iterator.default⟩

/-- Constructor `array_iterator(pointer ptr, size_type offset = 0) : theBase(ptr, offset)`. -/
def mk_at (ptr : Nat) (offset : Nat) : array_iterator Size :=
  ⟨array_const_iterator.mk_at ptr offset⟩

/-- Member `operator->() const`: `const_cast<pointer>(theBase::operator->())`. -/
def operator_arrow (it : array_iterator Size) : Except Exn Nat :=
  it.theBase.operator_arrow

/-- Member `operator*() const`: `const_cast<reference>(theBase::operator*())`. -/
def operator_star (it : array_iterator Size) : Except Exn Nat :=
  it.theBase.operator_star

/-- Member `operator++()`: `theBase::operator++(); return *this;`. -/
def operator_preinc (it : array_iterator Size) : Except Exn Unit × array_iterator Size :=
  match it.theBase.operator_preinc with
  | (.error e, base1) => (.error e, ⟨base1⟩)
  | (.ok _, base1) => (.ok (), ⟨base1⟩)

/-- Member `operator++(int)`: `auto temp = *this; theBase::operator++(); return temp;`. -/
def operator_postinc (it : array_iterator Size) :
    Except Exn (array_iterator Size) × array_iterator Size :=
  let temp := it
  match it.theBase.operator_preinc with
  | (.error e, base1) => (.error e, ⟨base1⟩)
  | (.ok _, base1) => (.ok temp, ⟨base1⟩)

/-- Member `operator--()`: `theBase::operator--(); return *this;`. -/
def operator_predec (it : array_iterator Size) : Except Exn Unit × array_iterator Size :=
  match it.theBase.operator_predec with
  | (.error e, base1) => (.error e, ⟨base1⟩)
  | (.ok _, base1) => (.ok (), ⟨base1⟩)

/-- Member `operator--(int)`: `auto temp = *this; theBase::operator--(); return temp;`. -/
def operator_postdec (it : array_iterator Size) :
    Except Exn (array_iterator Size) × array_iterator Size :=
  let temp := it
  match it.theBase.operator_predec with
  | (.error e, base1) => (.error e, ⟨base1⟩)
  | (.ok _, base1) => (.ok temp, ⟨base1⟩)

/-- Member `operator+=(const diff_type offset)`: `theBase::operator+=(offset);
return *this;`. -/
def operator_plus_assign (it : array_iterator Size) (offset : Int) :
    Except Exn Unit × array_iterator Size :=
  match it.theBase.operator_plus_assign offset with
  | (.error e, base1) => (.error e, ⟨base1⟩)
  | (.ok _, base1) => (.ok (), ⟨base1⟩)

/-- Member `operator+(const diff_type offset)`: `auto temp = *this;
return temp += offset;`. -/
def operator_plus (it : array_iterator Size) (offset : Int) :
    Except Exn (array_iterator Size) :=
  let temp := it
  match temp.operator_plus_assign offset with
  | (.error e, _) => .error e
  | (.ok _, temp1) => .ok temp1

/-- Member `operator-=(const diff_type offset)`: `theBase::operator-=(offset);
return *this;`. -/
def operator_minus_assign (it : array_iterator Size) (offset : Int) :
    Except Exn Unit × array_iterator Size :=
  match it.theBase.operator_minus_assign offset with
  | (.error e, base1) => (.error e, ⟨base1⟩)
  | (.ok _, base1) => (.ok (), ⟨base1⟩)

/-- Member `operator-(const diff_type offset)`: `auto temp = *this;
return temp -= offset;`. -/
def operator_minus (it : array_iterator Size) (offset : Int) :
    Except Exn (array_iterator Size) :=
  let temp := it
  match temp.operator_minus_assign offset with
  | (.error e, _) => .error e
  | (.ok _, temp1) => .ok temp1

/-- Member `operator[](const diff_type index) const`:
`const_cast<reference>(theBase::operator[](index))`. -/
def operator_index (it : array_iterator Size) (index : Int) : Except Exn Nat :=
  it.theBase.operator_index index

/-- The expression `it - rhs` for two `array_iterator`s. The member
`operator-(const diff_type offset)` declared in `array_iterator` hides the member
`operator-(const array_const_iterator&)` of the base class, and an
`array_iterator` does not convert to `diff_type`; no candidate is viable, so the
expression does not compile, whatever `T` is. -/
def operator_diff (_T : CppType) (_it _rhs : array_iterator Size) :
    Option (Except Exn Int) :=
  none

/-- The expression `it == rhs` for two `array_iterator`s: the member `operator==`
inherited from the base class, on the base class parts of both. -/
def operator_eq (T : CppType) (it rhs : array_iterator Size) : Option (Except Exn Bool) :=
  it.theBase.operator_eq T rhs.theBase

/-- The expression `it != rhs`: the inherited member `operator!=`. -/
def operator_ne (T : CppType) (it rhs : array_iterator Size) : Option (Except Exn Bool) :=
  it.theBase.operator_ne T rhs.theBase

/-- The expression `it < rhs`: the inherited member `operator<`. -/
def operator_lt (T : CppType) (it rhs : array_iterator Size) : Option (Except Exn Bool) :=
  it.theBase.operator_lt T rhs.theBase

/-- The expression `it > rhs`: the inherited member `operator>`. -/
def operator_gt (T : CppType) (it rhs : array_iterator Size) : Option (Except Exn Bool) :=
  it.theBase.operator_gt T rhs.theBase

/-- The expression `it <= rhs`: the inherited member `operator<=`. -/
def operator_le (T : CppType) (it rhs : array_iterator Size) : Option (Except Exn Bool) :=
  it.theBase.operator_le T rhs.theBase

/-- The expression `it >= rhs`: the inherited member `operator>=`. -/
def operator_ge (T : CppType) (it rhs : array_iterator Size) : Option (Except Exn Bool) :=
  it.theBase.operator_ge T rhs.theBase

end array_iterator

/-- Free function `operator+(const ptrdiff_t offset, array_iterator next)`:
`next += offset` on the by-value parameter. -/
def operator_plus_left_mutable {Size : Nat} (offset : Int) (next : array_iterator Size) :
    Except Exn (array_iterator Size) :=
  match next.operator_plus_assign offset with
  | (.error e, _) => .error e
  | (.ok _, next1) => .ok next1

/-- Member `begin()` of `array`, non-const overload: `iterator(elements_, 0)`. -/
def array.begin {T : Type} {Size : Nat} (a : array T Size) : array_iterator Size :=
  array_iterator.mk_at a.storage 0

/-- Member `end()` of `array`, non-const overload: `iterator(elements_, Size)`. -/
def array.«end» {T : Type} {Size : Nat} (a : array T Size) : array_iterator Size :=
  array_iterator.mk_at a.storage Size

/-- One operation of the iterator interface that yields an iterator: the four
increments and decrements and the offset operators with their `diff_type`
argument. -/
inductive iterator_step where
  | preinc
  | postinc
  | predec
  | postdec
  | plus_assign (offset : Int)
  | minus_assign (offset : Int)
  | plus (offset : Int)
  | minus (offset : Int)
  deriving DecidableEq, Repr

/-- The iterator that a step leaves behind when it succeeds: `*this` after the
call for the members that modify it, the returned iterator for `it + offset`
and `it - offset`. -/
def iterator_step.apply {Size : Nat} (s : iterator_step) (it : array_const_iterator Size) :
    Except Exn (array_const_iterator Size) :=
  match s with
  | .preinc =>
    match it.operator_preinc with
    | (.error e, _) => .error e
    | (.ok _, it1) => .ok it1
  | .postinc =>
    match it.operator_postinc with
    | (.error e, _) => .error e
    | (.ok _, it1) => .ok it1
  | .predec =>
    match it.operator_predec with
    | (.error e, _) => .error e
    | (.ok _, it1) => .ok it1
  | .postdec =>
    match it.operator_postdec with
    | (.error e, _) => .error e
    | (.ok _, it1) => .ok it1
  | .plus_assign offset =>
    match it.operator_plus_assign offset with
    | (.error e, _) => .error e
    | (.ok _, it1) => .ok it1
  | .minus_assign offset =>
    match it.operator_minus_assign offset with
    | (.error e, _) => .error e
    | (.ok _, it1) => .ok it1
  | .plus offset => it.operator_plus offset
  | .minus offset => it.operator_minus offset

/-- A finite sequence of steps, each applied to the iterator that the one
before it left behind; it stops at the first step that throws. -/
def run_steps {Size : Nat} : List iterator_step → array_const_iterator Size →
    Except Exn (array_const_iterator Size)
  | [], it => .ok it
  | s :: rest, it =>
    match s.apply it with
    | .error e => .error e
    | .ok it1 => run_steps rest it1

end ds

/-! ## Definitions: the metafunctions of `bc_type_traits.h` -/

/-- Metafunction `add_reference<T>::type`: the primary template yields `T&`,
the partial specialisation `add_reference<T&>` yields `T&`. -/
def add_reference : CppType → CppType
  | .lref T => .lref T
  | T => T.add_lvalue_ref

/-- Metafunction `add_const_reference<T>::type`: the primary template yields
`const T&`, the partial specialisation `add_const_reference<T&>` yields `T&`. -/
def add_const_reference : CppType → CppType
  | .lref T => .lref T
  | T => T.add_const_qualifier.add_lvalue_ref

/-- Return type of `get<Index>(tuple<Types...>& t)`:
`add_reference_t<tuple_element<Index, tuple<Types...>>::type>`; there is none
where `tuple_element` has no member `type`. -/
def get_return_type (Index : Nat) (Types : List CppType) : Option CppType :=
  (tuple_element Index Types).map add_reference

/-- Return type of `get<Index>(const tuple<Types...>& t)`:
`add_const_reference_t<tuple_element<Index, tuple<Types...>>::type>`. -/
def get_return_type_const (Index : Nat) (Types : List CppType) : Option CppType :=
  (tuple_element Index Types).map add_const_reference

/-- The element types of `tuple<int, int&, const double&>`. -/
abbrev mixed_types : List CppType :=
  [.named "int", .lref (.named "int"), .lref (.const (.named "double"))]

/-- Member typedef `array_const_iterator<T, Size>::reference`: `const T&`. -/
def ds.array_const_iterator.reference (T : CppType) : CppType :=
  T.add_const_qualifier.add_lvalue_ref

/-- Member typedef `array_iterator<T, Size>::reference`: `T&`. -/
def ds.array_iterator.reference (T : CppType) : CppType :=
  T.add_lvalue_ref

/-- Metafunction `remove_const<T>::type`: `T` in the primary template, and `T`
in the partial specialisation `remove_const<const T>`, which matches a type
that is const-qualified at the top level. -/
def remove_const : CppType → CppType
  | .const T => T
  | T => T

/-- Metafunction `is_const<T>::value`: `false_type` in the primary template,
`true_type` in the partial specialisations `is_const<const T>`,
`is_const<const T&>` and `is_const<const T&&>`. -/
def is_const : CppType → Bool
  | .const _ => true
  | .lref (.const _) => true
  | .rref (.const _) => true
  | _ => false

/-! ## Definitions: `make_tuple`, `reference_wrapper`, `ref`, `cref` -/

/-- Class `reference_wrapper<T>`: the data member `type* ptr`. -/
structure reference_wrapper where
  ptr : Nat
  deriving DecidableEq, Repr

namespace reference_wrapper

/-- Member `get() const`: `*ptr`. -/
def get (w : reference_wrapper) : Nat := w.ptr

end reference_wrapper

namespace make_tuple_arg

end make_tuple_arg

/-- The template argument list that consists of exactly one argument of the
form `type_list<Types...>`, which is what the partial specialisations of
`type_list_size` and `type_at_index` are written for. -/
def match_type_list : List CppType → Option (List CppType)
  | [.type_list Types] => some Types
  | _ => none

/-- Measure for the recursion of `type_list_size`. -/
def type_list_size_measure : List CppType → Nat
  | [.type_list Types] => Types.length
  | Types => Types.length + 2

/-- Metafunction `type_list_size<Types...>::value`: 0 for the specialisation
`type_list_size<type_list<>>`, one more than the size of the tail for
`type_list_size<type_list<Head, Tail...>>`, and in the primary template the
value of `type_list_size<type_list<Types...>>`. -/
def type_list_size (Types : List CppType) : Nat :=
  match h : match_type_list Types with
  | some [] => 0
  | some (_ :: Tail) => 1 + type_list_size [.type_list Tail]
  | none => type_list_size [.type_list Types]
termination_by type_list_size_measure Types
decreasing_by
  · cases Types with
    | nil => simp [match_type_list] at h
    | cons T rest =>
      cases rest with
      | nil => cases T <;> simp_all [type_list_size_measure, match_type_list]
      | cons U rest2 => simp [match_type_list] at h
  · cases Types with
    | nil => simp [type_list_size_measure]
    | cons T rest =>
      cases rest with
      | nil => cases T <;> simp_all [type_list_size_measure, match_type_list]
      | cons U rest2 => simp [type_list_size_measure]

/-- Measure for the recursion of `type_at_index`, next to the index. -/
def type_at_index_phase : List CppType → Nat
  | [.type_list (_ :: _)] => 0
  | [] => 2
  | _ => 1

/-- Metafunction `type_at_index<Index, TypeList...>::result`, where there is one.
For the one argument `type_list<Head, Tail...>` the specialisation for index 0
yields `Head` and the one for any other index refers to
`type_at_index<Index - 1, type_list<Tail...>>`; every other argument list is
handled by the primary template, which refers to
`type_at_index<Index, type_list<Types...>>`. -/
def type_at_index (Index : Nat) (Types : List CppType) : Option CppType :=
  match h : match_type_list Types with
  | some (Head :: Tail) =>
    match Index with
    | 0 => some Head
    | Index + 1 => type_at_index Index [.type_list Tail]
  | some [] => type_at_index Index [.type_list Types]
  | none => type_at_index Index [.type_list Types]
termination_by (Index, type_at_index_phase Types)
decreasing_by
  · exact Prod.Lex.left _ _ (Nat.lt_succ_self _)
  · apply Prod.Lex.right
    cases Types with
    | nil => simp [match_type_list] at h
    | cons T rest =>
      cases rest with
      | nil => cases T <;> simp_all [type_at_index_phase, match_type_list]
      | cons U rest2 => simp [type_at_index_phase]
  · apply Prod.Lex.right
    cases Types with
    | nil => simp [type_at_index_phase]
    | cons T rest =>
      cases rest with
      | nil => cases T <;> simp_all [type_at_index_phase, match_type_list]
      | cons U rest2 => simp [type_at_index_phase]

/-- Metafunction `prepend<...>::result`, where the instantiation is well-formed.
The specialisation `prepend<ToPrepend, type_list<Types...>>` yields
`type_list<ToPrepend, Types...>`, the specialisation
`prepend<type_list<Types...>, ToPrepend>` yields `type_list<Types..., ToPrepend>`;
two `type_list` arguments match both and neither is more specialised, so that
instantiation is ambiguous. Every other argument list `ToPrepend, Types...` goes
to the primary template, `type_list<ToPrepend, Types...>`. -/
def prepend : List CppType → Option CppType
  | [.type_list _, .type_list _] => none
  | [ToPrepend, .type_list Types] => some (.type_list (ToPrepend :: Types))
  | [.type_list Types, ToPrepend] => some (.type_list (Types ++ [ToPrepend]))
  | ToPrepend :: Types => some (.type_list (ToPrepend :: Types))
  | [] => none

/-- Metafunction `append<...>::result`, where the instantiation is well-formed.
The specialisation `append<ToAppend, type_list<Types...>>` yields
`type_list<Types..., ToAppend>`, the specialisation
`append<type_list<Types...>, ToAppend>` yields `type_list<ToAppend, Types...>`;
two `type_list` arguments are ambiguous. Every other argument list
`ToAppend, Types...` goes to the primary template, `type_list<Types..., ToAppend>`. -/
def append : List CppType → Option CppType
  | [.type_list _, .type_list _] => none
  | [ToAppend, .type_list Types] => some (.type_list (Types ++ [ToAppend]))
  | [.type_list Types, ToAppend] => some (.type_list (ToAppend :: Types))
  | ToAppend :: Types => some (.type_list (Types ++ [ToAppend]))
  | [] => none

/-! ## Theorems: machine arithmetic -/

namespace ds

theorem size_add_of_lt {x y : Nat} (h : x + y < 2 ^ 64) : size_add x y = x + y := by
  unfold size_add size_t_card
  exact Nat.mod_eq_of_lt h

theorem size_sub_of_le {x y : Nat} (hx : x < 2 ^ 64) (hyx : y ≤ x) : size_sub x y = x - y := by
  unfold size_sub size_neg size_t_card
  norm_num at hx ⊢
  omega

theorem to_diff_type_size_sub {x y : Nat}
    (hlo : -(2 ^ 63 : Int) ≤ (x : Int) - y) (hhi : (x : Int) - y < 2 ^ 63) :
    to_diff_type (size_sub x y) = (x : Int) - y := by
  unfold to_diff_type size_sub size_neg size_t_card diff_type_bound
  norm_num at hlo hhi ⊢
  split <;> omega

theorem not_decide_lt (x y : Nat) : (!decide (x < y)) = decide (y ≤ x) := by
  by_cases h : x < y
  · have h2 : ¬ y ≤ x := Nat.not_le.mpr h
    simp [h, h2]
  · have h2 : y ≤ x := Nat.le_of_not_lt h
    simp [h, h2]

/-! ## Theorems: `array` and `array_const_iterator` -/

section array_theorems

variable {T : Type} {Size : Nat}

theorem load_element (a : array T Size) {i : Nat} (h : i < Size) :
    a.load (a.storage + i) = a.elements_[i]? ∧ ∃ v, a.elements_[i]? = some v := by
  have hlen : i < a.elements_.length := by rw [a.length_eq]; exact h
  refine ⟨?_, a.elements_[i], List.getElem?_eq_getElem hlen⟩
  unfold array.load
  rw [if_pos ⟨Nat.le_add_right _ _, Nat.add_lt_add_left h _⟩, Nat.add_sub_cancel_left]

theorem increment_times_begin (a : array T Size) (hS : Size < 2 ^ 64) (j k : Nat)
    (h : j + k ≤ Size) :
    array_const_iterator.increment_times k (⟨a.storage, j⟩ : array_const_iterator Size)
      = (.ok (), ⟨a.storage, j + k⟩) := by
  induction k generalizing j with
  | zero => rfl
  | succ n ih =>
    have hj : ¬ (j ≥ Size) := by omega
    have hadd : size_add j 1 = j + 1 := size_add_of_lt (by omega)
    have hstep :
        array_const_iterator.operator_preinc (⟨a.storage, j⟩ : array_const_iterator Size)
          = (.ok (), ⟨a.storage, j + 1⟩) := by
      simp only [array_const_iterator.operator_preinc, if_neg a.storage_ne_null, if_neg hj, hadd]
    simp only [array_const_iterator.increment_times, hstep]
    rw [ih (j + 1) (by omega)]
    congr 2
    omega

theorem to_size_t_of_nonneg {d : Int} (h0 : 0 ≤ d) (h1 : d < 2 ^ 64) :
    to_size_t d = d.toNat := by
  unfold to_size_t size_t_card
  norm_num at h1 ⊢
  omega

theorem size_neg_to_size_t_of_neg {d : Int} (h0 : d < 0) (h1 : -(2 ^ 63 : Int) ≤ d) :
    size_neg (to_size_t d) = (-d).toNat := by
  unfold size_neg to_size_t size_t_card
  norm_num at h1 ⊢
  omega

/-- What `verify_offset` accepts for a positive offset: on an iterator with set
storage at index `i <= Size`, the offset `d > 0` is rejected ("after end") when
`i + d < Size` and accepted when `i + d >= Size`. -/
theorem verify_offset_of_pos (it : array_const_iterator Size) (hp : it.ptr_ ≠ 0)
    (hS : Size < 2 ^ 63) (hi : it.index_ ≤ Size) (d : Int) (h0 : 0 < d) (h1 : d < 2 ^ 63) :
    it.verify_offset d
      = if (it.index_ : Int) + d < Size then .error .after_end else .ok () := by
  have hsub : size_sub Size it.index_ = Size - it.index_ :=
    size_sub_of_le (by norm_num at hS ⊢; omega) hi
  have hd : to_size_t d = d.toNat := to_size_t_of_nonneg (Int.le_of_lt h0) (by omega)
  have hneg : ¬ d < 0 := by omega
  unfold array_const_iterator.verify_offset
  rw [if_neg hp, hsub, hd]
  by_cases hc : (it.index_ : Int) + d < Size
  · have hgt : Size - it.index_ > d.toNat := by omega
    simp [hneg, h0, hgt, hc]
  · have hgt : ¬ Size - it.index_ > d.toNat := by omega
    simp [hneg, hgt, hc]

/-- What `verify_offset` accepts for a negative offset: the offset `d < 0` is
rejected ("before begin") exactly when `i + d < 0`. -/
theorem verify_offset_of_neg (it : array_const_iterator Size) (hp : it.ptr_ ≠ 0)
    (d : Int) (h0 : d < 0) (h1 : -(2 ^ 63 : Int) ≤ d) :
    it.verify_offset d
      = if (it.index_ : Int) + d < 0 then .error .before_begin else .ok () := by
  have hd : size_neg (to_size_t d) = (-d).toNat := size_neg_to_size_t_of_neg h0 h1
  have hpos : ¬ d > 0 := by omega
  unfold array_const_iterator.verify_offset
  rw [if_neg hp, hd]
  by_cases hc : (it.index_ : Int) + d < 0
  · have hlt : it.index_ < (-d).toNat := by omega
    simp [h0, hlt, hc]
  · have hlt : ¬ it.index_ < (-d).toNat := by omega
    simp [hpos, hlt, hc]

/-- On every array of at least two elements, `begin() + i` throws "after end" for
each index `i` strictly between 0 and `Size`. -/
theorem begin_plus_inner_index_throws (a : array T Size) (hS : Size < 2 ^ 63)
    (i : Nat) (h0 : 0 < i) (h1 : i < Size) :
    a.begin_const.operator_plus (i : Int) = .error .after_end := by
  have hv := verify_offset_of_pos a.begin_const a.storage_ne_null hS (Nat.zero_le _) (i : Int)
    (by omega) (by norm_num at hS ⊢; omega)
  have hc : ((a.begin_const.index_ : Nat) : Int) + (i : Int) < (Size : Int) := by
    show ((0 : Nat) : Int) + (i : Int) < (Size : Int)
    omega
  rw [if_pos hc] at hv
  simp only [array_const_iterator.operator_plus, array_const_iterator.operator_plus_assign, hv]

/-- C1 (the code departs from the claim): on the `array<int, 3>` holding 10, 20, 30
the accesses `at(1)` and `[1]` both return the reference to element 1, which holds 20,
while `begin() + 1`, and with it `*(begin() + 1)` and `begin()[1]`, throws "can
not reach an array iterator after end." -/
theorem C1_begin_plus_offset_throws :
    (sample_array.at 1).1 = .ok 101 ∧ (sample_array.operator_index 1).1 = .ok 101 ∧
    sample_array.at_const 1 = .ok 101 ∧ sample_array.operator_index_const 1 = .ok 101 ∧
    sample_array.load 101 = some 20 ∧
    sample_array.begin_const.operator_plus 1 = .error .after_end ∧
    sample_array.begin_const.operator_index 1 = .error .after_end ∧
    Exn.kind .after_end = .OffsetOutOfRange := by
  decide

/-- C2 (the code departs from the claim): on an iterator at index 0 over an
`array<int, 3>`, the offset 1 keeps the index within `[0, 3]` and yet `+=`, `+`,
`-=` and `-` throw "after end" (OffsetOutOfRange), while the offset 5, which
leaves `[0, 3]`, is accepted by all four and yields index 5. -/
theorem C2_offset_check_reversed :
    sample_array.begin_const.operator_plus_assign 1
      = (.error .after_end, sample_array.begin_const) ∧
    sample_array.begin_const.operator_plus 1 = .error .after_end ∧
    sample_array.begin_const.operator_minus_assign (-1)
      = (.error .after_end, sample_array.begin_const) ∧
    sample_array.begin_const.operator_minus (-1) = .error .after_end ∧
    sample_array.begin_const.operator_plus_assign 5 = (.ok (), ⟨100, 5⟩) ∧
    sample_array.begin_const.operator_plus 5 = .ok ⟨100, 5⟩ ∧
    sample_array.begin_const.operator_minus_assign (-5) = (.ok (), ⟨100, 5⟩) ∧
    sample_array.begin_const.operator_minus (-5) = .ok ⟨100, 5⟩ := by
  refine ⟨rfl, rfl, rfl, rfl, rfl, rfl, rfl, rfl⟩

/-- C3: `at(i)` and `operator[](i)` behave identically, in the non-const and in
the const overload: for `i >= Size` both throw "index is out of range"
(IndexOutOfRange) and for `i < Size` both return the reference to the `i`-th
stored element; the array after the call is the array before it. -/
theorem C3_at_and_subscript_checked (a : array T Size) (i : Nat) :
    a.at i = a.operator_index i ∧ a.at_const i = a.operator_index_const i ∧
    (a.at i).1 = a.at_const i ∧ (a.at i).2 = a ∧ (a.operator_index i).2 = a ∧
    ((∃ e, a.at_const i = .error e) ↔ Size ≤ i) ∧
    (Size ≤ i → a.at_const i = .error .index_out_of_range) ∧
    Exn.kind .index_out_of_range = .IndexOutOfRange ∧
    (i < Size → a.at_const i = .ok (a.storage + i) ∧
      a.load (a.storage + i) = a.elements_[i]? ∧ ∃ v, a.elements_[i]? = some v) := by
  refine ⟨rfl, rfl, ?_, ?_, ?_, ?_, ?_, rfl, ?_⟩
  · unfold array.at array.at_const
    split <;> rfl
  · unfold array.at
    split <;> rfl
  · unfold array.operator_index
    split <;> rfl
  · unfold array.at_const
    constructor
    · rintro ⟨e, he⟩
      by_contra hlt
      rw [if_neg hlt] at he
      cases he
    · intro hle
      exact ⟨.index_out_of_range, if_pos hle⟩
  · intro hle
    exact if_pos hle
  · intro hlt
    exact ⟨if_neg (Nat.not_le.mpr hlt), load_element a hlt⟩

/-- The claim C3 at the size itself and at a valid index of `array<int, 3>`:
`at(3)` and `[3]` throw, `at(1)` returns element 1. -/
theorem C3_at_and_subscript_checked_witness :
    sample_array.at_const 3 = .error .index_out_of_range ∧
    sample_array.operator_index_const 3 = .error .index_out_of_range ∧
    sample_array.at_const 1 = .ok 101 ∧ sample_array.load 101 = some 20 := by
  have h3 := C3_at_and_subscript_checked sample_array 3
  have h1 := C3_at_and_subscript_checked sample_array 1
  refine ⟨h3.2.2.2.2.2.2.1 (by decide), ?_, (h1.2.2.2.2.2.2.2.2 (by decide)).1, by decide⟩
  rw [← h3.2.1]
  exact h3.2.2.2.2.2.2.1 (by decide)

/-- C4: `operator->` and `operator*` of an iterator `(ptr_, index_)` throw
"Underlying pointer can not be null." (NullStorage) when `ptr_` is null, whatever
the index; otherwise they throw "can not deference out of range."
(IndexOutOfRange) when `index_ >= Size`; otherwise they return element `index_`
of the storage. Hence `*end()` always throws IndexOutOfRange and dereferencing
a default-constructed iterator throws NullStorage. -/
theorem C4_dereference (a : array T Size) (it : array_const_iterator Size) :
    it.operator_star = it.operator_arrow ∧
    (it.ptr_ = 0 → it.operator_star = .error .null_pointer) ∧
    (it.ptr_ ≠ 0 → Size ≤ it.index_ → it.operator_star = .error .deref_out_of_range) ∧
    (it.ptr_ ≠ 0 → it.index_ < Size → it.operator_star = .ok (it.ptr_ + it.index_)) ∧
    (∀ i, i < Size →
      (array_const_iterator.mk_at a.storage i : array_const_iterator Size).operator_star
        = .ok (a.storage + i) ∧ a.load (a.storage + i) = a.elements_[i]?) ∧
    a.end_const.operator_star = .error .deref_out_of_range ∧
    (array_const_iterator.default : array_const_iterator Size).operator_star
      = .error .null_pointer ∧
    Exn.kind .null_pointer = .NullStorage ∧
    Exn.kind .deref_out_of_range = .IndexOutOfRange := by
  have hstar : ∀ x : array_const_iterator Size, x.operator_star = x.operator_arrow := by
    intro x
    unfold array_const_iterator.operator_star
    split <;> simp_all
  refine ⟨hstar it, ?_, ?_, ?_, ?_, ?_, ?_, rfl, rfl⟩
  · intro h
    rw [hstar]
    exact if_pos h
  · intro h hle
    rw [hstar]
    unfold array_const_iterator.operator_arrow
    rw [if_neg h, if_pos hle]
  · intro h hlt
    rw [hstar]
    unfold array_const_iterator.operator_arrow
    rw [if_neg h, if_neg (Nat.not_le.mpr hlt)]
  · intro i hi
    refine ⟨?_, (load_element a hi).1⟩
    rw [hstar]
    unfold array_const_iterator.operator_arrow array_const_iterator.mk_at
    rw [if_neg a.storage_ne_null, if_neg (Nat.not_le.mpr hi)]
  · rw [hstar]
    unfold array_const_iterator.operator_arrow array.end_const array_const_iterator.mk_at
    rw [if_neg a.storage_ne_null, if_pos (Nat.le_refl _)]
  · rfl

/-- The claim C4 on `array<int, 3>`: a null iterator at index 7 throws NullStorage,
the iterator at index 1 designates element 1, the one at index 3 throws. -/
theorem C4_dereference_witness :
    (⟨0, 7⟩ : array_const_iterator 3).operator_star = .error .null_pointer ∧
    (⟨100, 3⟩ : array_const_iterator 3).operator_star = .error .deref_out_of_range ∧
    (⟨100, 1⟩ : array_const_iterator 3).operator_star = .ok 101 :=
  ⟨(C4_dereference sample_array ⟨0, 7⟩).2.1 rfl,
   (C4_dereference sample_array ⟨100, 3⟩).2.2.1 (by decide) (by decide),
   (C4_dereference sample_array ⟨100, 1⟩).2.2.2.1 (by decide) (by decide)⟩

/-- For an array of size `Size`, every run of `k <= Size` increments of `begin()`
succeeds and stops at index `k`; after exactly `Size` increments the iterator
has the storage pointer and the index of `end()`; one further increment throws
"can not deference out of range." (IndexOutOfRange) and leaves the iterator at
index `Size`. The post-increment changes the iterator exactly like the
pre-increment and, when it succeeds, returns the state before the step. The
comparison `==` of the result with `end()` returns true where it compiles,
which is for a const element type only. -/
theorem increment_reaches_end (a : array T Size) (hS : Size < 2 ^ 64) :
    (∀ k, k ≤ Size →
      array_const_iterator.increment_times k a.begin_const = (.ok (), ⟨a.storage, k⟩)) ∧
    array_const_iterator.increment_times Size a.begin_const = (.ok (), a.end_const) ∧
    (∀ E : CppType,
      (array_const_iterator.increment_times Size a.begin_const).2.operator_eq E a.end_const
        = if E.is_const_qualified then some (.ok true) else none) ∧
    array_const_iterator.increment_times (Size + 1) a.begin_const
      = (.error .deref_out_of_range, a.end_const) ∧
    a.end_const.operator_preinc = (.error .deref_out_of_range, a.end_const) ∧
    a.end_const.index_ = Size ∧
    Exn.kind .deref_out_of_range = .IndexOutOfRange ∧
    (∀ it : array_const_iterator Size,
      (it.operator_postinc).2 = (it.operator_preinc).2 ∧
      (∀ e, (it.operator_preinc).1 = .error e ↔ (it.operator_postinc).1 = .error e) ∧
      ((it.operator_preinc).1 = .ok () ↔ (it.operator_postinc).1 = .ok it)) := by
  have hrun : ∀ k, k ≤ Size →
      array_const_iterator.increment_times k a.begin_const = (.ok (), ⟨a.storage, k⟩) := by
    intro k hk
    have h := increment_times_begin a hS 0 k (by omega)
    rw [Nat.zero_add] at h
    exact h
  have hend : a.end_const.operator_preinc = (.error .deref_out_of_range, a.end_const) := by
    unfold array_const_iterator.operator_preinc array.end_const array_const_iterator.mk_at
    rw [if_neg a.storage_ne_null, if_pos (Nat.le_refl _)]
  have hfull :
      array_const_iterator.increment_times Size a.begin_const = (.ok (), a.end_const) :=
    hrun Size (Nat.le_refl _)
  refine ⟨hrun, hfull, ?_, ?_, hend, rfl, rfl, ?_⟩
  · intro E
    rw [hfull]
    by_cases hE : E.is_const_qualified = true
    · simp [array_const_iterator.operator_eq, array_const_iterator.verify_compatibility,
        array_const_iterator.verify_compatibility_call_ok, hE]
    · simp [array_const_iterator.operator_eq,
        array_const_iterator.verify_compatibility_call_ok, hE]
  · have hsplit : ∀ (n : Nat) (x : array_const_iterator Size),
        array_const_iterator.increment_times n x = (.ok (), a.end_const) →
        array_const_iterator.increment_times (n + 1) x
          = (.error .deref_out_of_range, a.end_const) := by
      intro n
      induction n with
      | zero =>
        intro x hx
        simp only [array_const_iterator.increment_times] at hx
        have hxe : x = a.end_const := (Prod.mk.inj hx).2
        subst hxe
        simp only [array_const_iterator.increment_times, hend]
      | succ m ih =>
        intro x hx
        rw [array_const_iterator.increment_times] at hx ⊢
        split at hx
        · cases hx
        · rename_i it1 heq
          exact ih it1 hx
    exact hsplit Size a.begin_const hfull
  · intro it
    unfold array_const_iterator.operator_postinc
    generalize it.operator_preinc = r
    obtain ⟨r1, r2⟩ := r
    cases r1 with
    | error e => simp
    | ok u => simp

/-- C5 (the code departs from the claim): on `array<int, 3>` three increments of
`begin()` succeed and leave an iterator with the storage pointer and index of
`end()`, and a fourth throws "can not deference out of range." and leaves index
3; but the comparison of that iterator with `end()` does not compile, neither
for the read-only iterator nor for the mutable one, because `operator==` passes
`rhs.ptr_`, a `const int*`, to `verify_compatibility(int*)`. With the element
type `const int` it compiles and returns true. -/
theorem C5_comparison_with_end_ill_formed :
    array_const_iterator.increment_times 3 sample_array.begin_const
      = (.ok (), sample_array.end_const) ∧
    array_const_iterator.increment_times 4 sample_array.begin_const
      = (.error .deref_out_of_range, sample_array.end_const) ∧
    (array_const_iterator.increment_times 3 sample_array.begin_const).2.operator_eq
      (.named "int") sample_array.end_const = none ∧
    (sample_array.begin.operator_preinc.2.operator_preinc.2.operator_preinc.2).operator_eq
      (.named "int") sample_array.end = none ∧
    sample_array.begin.operator_preinc.2.operator_preinc.2.operator_preinc.2
      = sample_array.end ∧
    (array_const_iterator.increment_times 3 sample_array.begin_const).2.operator_eq
      (.const (.named "int")) sample_array.end_const = some (.ok true) := by
  refine ⟨rfl, rfl, rfl, rfl, rfl, rfl⟩

/-- For a const element type and an array whose size fits the signed difference
type, `end() - begin()` on read-only iterators is `Size` and `begin() - end()` is
`-Size`; for two read-only iterators over the same storage at indices `i` and
`j`, both at most `Size`, the difference is the signed integer `i - j`, although
the source computes it by a wrapping unsigned subtraction that is then cast to
`diff_type`. -/
theorem iterator_difference_of_const_element (a : array T Size) (hS : Size < 2 ^ 63)
    (E : CppType) (hE : E.is_const_qualified = true) :
    a.end_const.operator_diff E a.begin_const = some (.ok (Size : Int)) ∧
    a.begin_const.operator_diff E a.end_const = some (.ok (-(Size : Int))) ∧
    (∀ p i j, i ≤ Size → j ≤ Size →
      (⟨p, i⟩ : array_const_iterator Size).operator_diff E ⟨p, j⟩
        = some (.ok ((i : Int) - (j : Int)))) ∧
    (∀ p i j, i ≤ Size → j ≤ Size → i < j →
      (⟨p, i⟩ : array_const_iterator Size).operator_diff E ⟨p, j⟩
        = some (.ok (to_diff_type (2 ^ 64 - (j - i))))) := by
  have hgen : ∀ p i j, i ≤ Size → j ≤ Size →
      (⟨p, i⟩ : array_const_iterator Size).operator_diff E ⟨p, j⟩
        = some (.ok ((i : Int) - (j : Int))) := by
    intro p i j hi hj
    have hcast : to_diff_type (size_sub i j) = (i : Int) - j :=
      to_diff_type_size_sub (by norm_num at hS ⊢; omega) (by norm_num at hS ⊢; omega)
    simp only [array_const_iterator.operator_diff, array_const_iterator.verify_compatibility,
      array_const_iterator.verify_compatibility_call_ok, hE, hcast]
    simp
  refine ⟨?_, ?_, hgen, ?_⟩
  · have h := hgen a.storage Size 0 (Nat.le_refl _) (Nat.zero_le _)
    simpa [array.end_const, array.begin_const, array_const_iterator.mk_at] using h
  · have h := hgen a.storage 0 Size (Nat.zero_le _) (Nat.le_refl _)
    simpa [array.end_const, array.begin_const, array_const_iterator.mk_at] using h
  · intro p i j hi hj hij
    have hwrap : size_sub i j = 2 ^ 64 - (j - i) := by
      unfold size_sub size_neg size_t_card
      norm_num at hS ⊢
      omega
    simp only [array_const_iterator.operator_diff, array_const_iterator.verify_compatibility,
      array_const_iterator.verify_compatibility_call_ok, hE, hwrap]
    simp

/-- C6 (the code departs from the claim): on `array<int, 3>` the expression
`end() - begin()` has no value. On the mutable iterators of a non-const array it
does not compile for any element type, because `array_iterator::operator-(diff_type)`
hides the iterator difference of the base class; on the read-only iterators it
does not compile for the element type `int`, because the difference passes
`rhs.ptr_`, a `const int*`, to `verify_compatibility(int*)`. Only the read-only
iterators of an array of `const int` give 3, and -3 for `begin() - end()`. -/
theorem C6_difference_ill_formed :
    sample_array.end.operator_diff (.named "int") sample_array.begin = none ∧
    sample_array.end.operator_diff (.const (.named "int")) sample_array.begin = none ∧
    sample_array.end_const.operator_diff (.named "int") sample_array.begin_const = none ∧
    sample_array.begin_const.operator_diff (.named "int") sample_array.end_const = none ∧
    sample_array.end_const.operator_diff (.const (.named "int")) sample_array.begin_const
      = some (.ok 3) ∧
    sample_array.begin_const.operator_diff (.const (.named "int")) sample_array.end_const
      = some (.ok (-3)) := by
  refine ⟨rfl, rfl, rfl, rfl, rfl, rfl⟩

/-- For a const element type, each of `a - b`, `a == b`, `a != b`, `a < b`,
`a > b`, `a <= b`, `a >= b` on read-only iterators throws "internal pointer types
are different" (IncompatibleIterators) when the two storage pointers differ, as
for iterators of two distinct arrays; when they are equal each one succeeds:
the six comparisons return the comparison of the two indices, and the
difference returns the 64-bit difference of the indices, which is the integer
`i - j` whenever that fits the signed difference type. -/
theorem compatibility_of_const_element (a b : array_const_iterator Size)
    (E : CppType) (hE : E.is_const_qualified = true) :
    (a.ptr_ ≠ b.ptr_ →
      a.operator_diff E b = some (.error .different_pointers) ∧
      a.operator_eq E b = some (.error .different_pointers) ∧
      a.operator_ne E b = some (.error .different_pointers) ∧
      a.operator_lt E b = some (.error .different_pointers) ∧
      a.operator_gt E b = some (.error .different_pointers) ∧
      a.operator_le E b = some (.error .different_pointers) ∧
      a.operator_ge E b = some (.error .different_pointers)) ∧
    Exn.kind .different_pointers = .IncompatibleIterators ∧
    (a.ptr_ = b.ptr_ →
      a.operator_eq E b = some (.ok (decide (a.index_ = b.index_))) ∧
      a.operator_ne E b = some (.ok (decide (a.index_ ≠ b.index_))) ∧
      a.operator_lt E b = some (.ok (decide (a.index_ < b.index_))) ∧
      a.operator_gt E b = some (.ok (decide (a.index_ > b.index_))) ∧
      a.operator_le E b = some (.ok (decide (a.index_ ≤ b.index_))) ∧
      a.operator_ge E b = some (.ok (decide (a.index_ ≥ b.index_))) ∧
      a.operator_diff E b = some (.ok (to_diff_type (size_sub a.index_ b.index_))) ∧
      (-(2 ^ 63 : Int) ≤ (a.index_ : Int) - b.index_ → (a.index_ : Int) - b.index_ < 2 ^ 63 →
        a.operator_diff E b = some (.ok ((a.index_ : Int) - b.index_)))) ∧
    (∀ x y : array T Size, x.storage ≠ y.storage →
      x.begin_const.operator_eq E y.begin_const = some (.error .different_pointers) ∧
      x.end_const.operator_diff E y.begin_const = some (.error .different_pointers)) := by
  refine ⟨?_, rfl, ?_, ?_⟩
  · intro h
    have h2 : ¬ b.ptr_ = a.ptr_ := fun e => h e.symm
    simp [array_const_iterator.operator_diff, array_const_iterator.operator_eq,
      array_const_iterator.operator_ne, array_const_iterator.operator_lt,
      array_const_iterator.operator_gt, array_const_iterator.operator_le,
      array_const_iterator.operator_ge, array_const_iterator.verify_compatibility,
      array_const_iterator.verify_compatibility_call_ok, hE, h, h2]
  · intro h
    have hdiff :
        a.operator_diff E b = some (.ok (to_diff_type (size_sub a.index_ b.index_))) := by
      simp [array_const_iterator.operator_diff, array_const_iterator.verify_compatibility,
        array_const_iterator.verify_compatibility_call_ok, hE, h]
    refine ⟨?_, ?_, ?_, ?_, ?_, ?_, hdiff, ?_⟩
    · simp [array_const_iterator.operator_eq, array_const_iterator.verify_compatibility,
        array_const_iterator.verify_compatibility_call_ok, hE, h]
    · simp [array_const_iterator.operator_ne, array_const_iterator.operator_eq,
        array_const_iterator.verify_compatibility,
        array_const_iterator.verify_compatibility_call_ok, hE, h]
    · simp [array_const_iterator.operator_lt, array_const_iterator.verify_compatibility,
        array_const_iterator.verify_compatibility_call_ok, hE, h]
    · simp [array_const_iterator.operator_gt, array_const_iterator.operator_lt,
        array_const_iterator.verify_compatibility,
        array_const_iterator.verify_compatibility_call_ok, hE, h]
    · simp only [array_const_iterator.operator_le, array_const_iterator.operator_lt,
        array_const_iterator.verify_compatibility,
        array_const_iterator.verify_compatibility_call_ok, hE, h, ne_eq, not_true_eq_false,
        if_false, if_true, not_decide_lt]
    · simp only [array_const_iterator.operator_ge, array_const_iterator.operator_lt,
        array_const_iterator.verify_compatibility,
        array_const_iterator.verify_compatibility_call_ok, hE, h, ne_eq, not_true_eq_false,
        if_false, if_true, not_decide_lt, ge_iff_le]
    · intro hlo hhi
      rw [hdiff, to_diff_type_size_sub hlo hhi]
  · intro x y hxy
    simp [array_const_iterator.operator_diff, array_const_iterator.operator_eq,
      array_const_iterator.verify_compatibility,
      array_const_iterator.verify_compatibility_call_ok, hE, array.begin_const,
      array.end_const, array_const_iterator.mk_at, hxy]

/-- C7 (the code departs from the claim): for iterators of `array<int, 3>`, none
of `a - b`, `a == b`, `a != b`, `a < b`, `a > b`, `a <= b`, `a >= b` compiles,
whether the two iterators come from two distinct arrays or from one: each
passes `rhs.ptr_`, a `const int*`, to `verify_compatibility(int*)`, directly or
through `==` and `<`. The same holds for the mutable iterators, whose `a - b`
compiles for no element type. With the element type `const int` the read-only
operators behave as the claim says: across two arrays they throw "internal
pointer types are different", on one array they return the comparison and the
difference of the indices. -/
theorem C7_operators_ill_formed :
    sample_array.begin_const.operator_diff (.named "int") other_array.begin_const = none ∧
    sample_array.begin_const.operator_eq (.named "int") other_array.begin_const = none ∧
    sample_array.begin_const.operator_ne (.named "int") other_array.begin_const = none ∧
    sample_array.begin_const.operator_lt (.named "int") other_array.begin_const = none ∧
    sample_array.begin_const.operator_gt (.named "int") other_array.begin_const = none ∧
    sample_array.begin_const.operator_le (.named "int") other_array.begin_const = none ∧
    sample_array.begin_const.operator_ge (.named "int") other_array.begin_const = none ∧
    sample_array.begin_const.operator_eq (.named "int") sample_array.end_const = none ∧
    sample_array.begin_const.operator_lt (.named "int") sample_array.end_const = none ∧
    sample_array.begin.operator_eq (.named "int") other_array.begin = none ∧
    sample_array.begin.operator_lt (.named "int") sample_array.end = none ∧
    sample_array.begin.operator_diff (.const (.named "int")) sample_array.end = none ∧
    sample_array.begin_const.operator_eq (.const (.named "int")) other_array.begin_const
      = some (.error .different_pointers) ∧
    sample_array.begin_const.operator_lt (.const (.named "int")) sample_array.end_const
      = some (.ok true) ∧
    sample_array.begin_const.operator_diff (.const (.named "int")) sample_array.end_const
      = some (.ok (-3)) := by
  refine ⟨rfl, rfl, rfl, rfl, rfl, rfl, rfl, rfl, rfl, rfl, rfl, rfl, rfl, rfl, rfl⟩

/-- C8: on an iterator with set storage, the pre- and the post-decrement throw
"can not deference out of range." (IndexOutOfRange) exactly when the index is 0,
so on `begin()`, and then leave the iterator unchanged; at an index `i > 0` they
succeed and set the index to `i - 1`, the post-decrement returning the state
before the step. -/
theorem C8_decrement (a : array T Size) (it : array_const_iterator Size)
    (hp : it.ptr_ ≠ 0) (hi : it.index_ < 2 ^ 64) :
    ((∃ e, (it.operator_predec).1 = .error e) ↔ it.index_ = 0) ∧
    ((∃ e, (it.operator_postdec).1 = .error e) ↔ it.index_ = 0) ∧
    (it.index_ = 0 →
      it.operator_predec = (.error .deref_out_of_range, it) ∧
      it.operator_postdec = (.error .deref_out_of_range, it)) ∧
    Exn.kind .deref_out_of_range = .IndexOutOfRange ∧
    (0 < it.index_ →
      it.operator_predec = (.ok (), ⟨it.ptr_, it.index_ - 1⟩) ∧
      it.operator_postdec = (.ok it, ⟨it.ptr_, it.index_ - 1⟩)) ∧
    a.begin_const.operator_predec = (.error .deref_out_of_range, a.begin_const) ∧
    a.begin_const.operator_postdec = (.error .deref_out_of_range, a.begin_const) := by
  have hzero : it.index_ = 0 →
      it.operator_predec = (.error .deref_out_of_range, it) ∧
      it.operator_postdec = (.error .deref_out_of_range, it) := by
    intro h0
    simp [array_const_iterator.operator_postdec, array_const_iterator.operator_predec, hp, h0]
  have hpos : 0 < it.index_ →
      it.operator_predec = (.ok (), ⟨it.ptr_, it.index_ - 1⟩) ∧
      it.operator_postdec = (.ok it, ⟨it.ptr_, it.index_ - 1⟩) := by
    intro h0
    have hne : it.index_ ≠ 0 := Nat.pos_iff_ne_zero.mp h0
    have hsub : size_sub it.index_ 1 = it.index_ - 1 := size_sub_of_le hi h0
    simp [array_const_iterator.operator_postdec, array_const_iterator.operator_predec, hp, hne,
      hsub]
  refine ⟨?_, ?_, hzero, rfl, hpos, ?_, ?_⟩
  · constructor
    · rintro ⟨e, he⟩
      by_contra hne
      rw [(hpos (Nat.pos_iff_ne_zero.mpr hne)).1] at he
      cases he
    · intro h0
      exact ⟨.deref_out_of_range, by rw [(hzero h0).1]⟩
  · constructor
    · rintro ⟨e, he⟩
      by_contra hne
      rw [(hpos (Nat.pos_iff_ne_zero.mpr hne)).2] at he
      cases he
    · intro h0
      exact ⟨.deref_out_of_range, by rw [(hzero h0).2]⟩
  · simp [array_const_iterator.operator_predec, array.begin_const, array_const_iterator.mk_at,
      a.storage_ne_null]
  · simp [array_const_iterator.operator_postdec, array_const_iterator.operator_predec,
      array.begin_const, array_const_iterator.mk_at, a.storage_ne_null]

/-- The claim C8 on `array<int, 3>`: decrementing `end()` gives index 2,
decrementing `begin()` throws. -/
theorem C8_decrement_witness :
    sample_array.end_const.operator_predec = (.ok (), ⟨100, 2⟩) ∧
    sample_array.begin_const.operator_predec
      = (.error .deref_out_of_range, sample_array.begin_const) :=
  ⟨((C8_decrement sample_array sample_array.end_const (by decide) (by decide)).2.2.2.2.1
      (by decide)).1,
   (C8_decrement sample_array sample_array.end_const (by decide) (by decide)).2.2.2.2.2.1⟩

/-- C18: every operation of the mutable iterator (`->`, `*`, `[]`, the pre- and
post-increment and -decrement, `+=`, `-=`, `+` and `-` with an offset) throws
exactly when the same operation of the read-only iterator throws on the same
(pointer, index) state, with the same exception, and otherwise leaves and
returns the same state and the same element address; the only difference is
the member typedef `reference`, `T&` against `const T&`. -/
theorem C18_mutable_iterator_refines (it : array_iterator Size) (d : Int) :
    it.operator_arrow = it.theBase.operator_arrow ∧
    it.operator_star = it.theBase.operator_star ∧
    it.operator_index d = it.theBase.operator_index d ∧
    ((it.operator_preinc).1 = (it.theBase.operator_preinc).1 ∧
      (it.operator_preinc).2.theBase = (it.theBase.operator_preinc).2) ∧
    ((it.operator_postinc).1.map array_iterator.theBase = (it.theBase.operator_postinc).1 ∧
      (it.operator_postinc).2.theBase = (it.theBase.operator_postinc).2) ∧
    ((it.operator_predec).1 = (it.theBase.operator_predec).1 ∧
      (it.operator_predec).2.theBase = (it.theBase.operator_predec).2) ∧
    ((it.operator_postdec).1.map array_iterator.theBase = (it.theBase.operator_postdec).1 ∧
      (it.operator_postdec).2.theBase = (it.theBase.operator_postdec).2) ∧
    ((it.operator_plus_assign d).1 = (it.theBase.operator_plus_assign d).1 ∧
      (it.operator_plus_assign d).2.theBase = (it.theBase.operator_plus_assign d).2) ∧
    ((it.operator_minus_assign d).1 = (it.theBase.operator_minus_assign d).1 ∧
      (it.operator_minus_assign d).2.theBase = (it.theBase.operator_minus_assign d).2) ∧
    (it.operator_plus d).map array_iterator.theBase = it.theBase.operator_plus d ∧
    (it.operator_minus d).map array_iterator.theBase = it.theBase.operator_minus d ∧
    (∀ T : CppType, T.is_reference = false → T.is_const_qualified = false →
      array_iterator.reference T = .lref T ∧
      (array_iterator.reference T).is_mutable_reference = true ∧
      array_const_iterator.reference T = .lref (.const T) ∧
      (array_const_iterator.reference T).is_const_reference = true) := by
  have hpre : ∀ x : array_iterator Size,
      (x.operator_preinc).1 = (x.theBase.operator_preinc).1 ∧
      (x.operator_preinc).2.theBase = (x.theBase.operator_preinc).2 := by
    intro x
    unfold array_iterator.operator_preinc
    generalize x.theBase.operator_preinc = r
    obtain ⟨r1, r2⟩ := r
    cases r1 <;> exact ⟨rfl, rfl⟩
  have hdec : ∀ x : array_iterator Size,
      (x.operator_predec).1 = (x.theBase.operator_predec).1 ∧
      (x.operator_predec).2.theBase = (x.theBase.operator_predec).2 := by
    intro x
    unfold array_iterator.operator_predec
    generalize x.theBase.operator_predec = r
    obtain ⟨r1, r2⟩ := r
    cases r1 <;> exact ⟨rfl, rfl⟩
  have hadd : ∀ (x : array_iterator Size) (k : Int),
      (x.operator_plus_assign k).1 = (x.theBase.operator_plus_assign k).1 ∧
      (x.operator_plus_assign k).2.theBase = (x.theBase.operator_plus_assign k).2 := by
    intro x k
    unfold array_iterator.operator_plus_assign
    generalize x.theBase.operator_plus_assign k = r
    obtain ⟨r1, r2⟩ := r
    cases r1 <;> exact ⟨rfl, rfl⟩
  have hsub : ∀ (x : array_iterator Size) (k : Int),
      (x.operator_minus_assign k).1 = (x.theBase.operator_minus_assign k).1 ∧
      (x.operator_minus_assign k).2.theBase = (x.theBase.operator_minus_assign k).2 := by
    intro x k
    unfold array_iterator.operator_minus_assign
    generalize x.theBase.operator_minus_assign k = r
    obtain ⟨r1, r2⟩ := r
    cases r1 <;> exact ⟨rfl, rfl⟩
  refine ⟨rfl, rfl, rfl, hpre it, ?_, hdec it, ?_, hadd it d, hsub it d, ?_, ?_, ?_⟩
  · unfold array_iterator.operator_postinc array_const_iterator.operator_postinc
    generalize it.theBase.operator_preinc = r
    obtain ⟨r1, r2⟩ := r
    cases r1 <;> exact ⟨rfl, rfl⟩
  · unfold array_iterator.operator_postdec array_const_iterator.operator_postdec
    generalize it.theBase.operator_predec = r
    obtain ⟨r1, r2⟩ := r
    cases r1 <;> exact ⟨rfl, rfl⟩
  · simp only [array_iterator.operator_plus, array_const_iterator.operator_plus,
      array_iterator.operator_plus_assign]
    generalize it.theBase.operator_plus_assign d = r
    obtain ⟨r1, r2⟩ := r
    cases r1 <;> rfl
  · simp only [array_iterator.operator_minus, array_const_iterator.operator_minus,
      array_iterator.operator_minus_assign]
    generalize it.theBase.operator_minus_assign d = r
    obtain ⟨r1, r2⟩ := r
    cases r1 <;> rfl
  · intro T hr hc
    cases T <;>
      simp_all [array_iterator.reference, array_const_iterator.reference,
        CppType.add_lvalue_ref, CppType.add_const_qualifier, CppType.is_reference,
        CppType.is_const_qualified, CppType.is_mutable_reference, CppType.is_const_reference]

/-- The claim C18 on `array<int, 3>`: `begin() + 1` throws "after end" on the
mutable iterator as on the read-only one, and `++` moves both from index 0 to
index 1. -/
theorem C18_mutable_iterator_refines_witness :
    (sample_array.begin.operator_plus 1).map array_iterator.theBase = .error .after_end ∧
    (sample_array.begin.operator_preinc).2.theBase = ⟨100, 1⟩ ∧
    array_iterator.reference (.named "int") = .lref (.named "int") :=
  ⟨(C18_mutable_iterator_refines sample_array.begin 1).2.2.2.2.2.2.2.2.2.1,
   (C18_mutable_iterator_refines sample_array.begin 1).2.2.2.1.2,
   ((C18_mutable_iterator_refines sample_array.begin 1).2.2.2.2.2.2.2.2.2.2.2
      (.named "int") rfl rfl).1⟩

/-- C19 (the code departs from the claim): on `array<int, 3>` the single steps
`begin() + 5`, `begin() += 5`, `end() + 1` and `end() -= -1` succeed and leave an
iterator at index 5, 5, 4 and 4, above the size 3; so does the mutable iterator. -/
theorem C19_index_leaves_range :
    run_steps [.plus 5] sample_array.begin_const = .ok ⟨100, 5⟩ ∧
    run_steps [.plus_assign 5] sample_array.begin_const = .ok ⟨100, 5⟩ ∧
    run_steps [.plus 1] sample_array.end_const = .ok ⟨100, 4⟩ ∧
    run_steps [.minus_assign (-1)] sample_array.end_const = .ok ⟨100, 4⟩ ∧
    run_steps [.preinc, .predec, .plus 7] sample_array.begin_const = .ok ⟨100, 7⟩ ∧
    sample_array.begin.operator_plus 5 = .ok ⟨⟨100, 5⟩⟩ ∧
    ¬ (5 ≤ sample_array.size) ∧ ¬ (4 ≤ sample_array.size) := by
  refine ⟨rfl, rfl, rfl, rfl, rfl, rfl, by decide, by decide⟩


end array_theorems

end ds

/-! ## Theorems: `tuple` -/

theorem tuple_element_isSome {α : Type u} (Types : List α) (i : Nat) :
    (tuple_element i Types).isSome = true ↔ i < tuple_size Types := by
  induction Types generalizing i with
  | nil => cases i <;> simp [tuple_element, tuple_size]
  | cons Head Tail ih =>
    cases i with
    | zero => simp [tuple_element, tuple_size]
    | succ n =>
      have h := ih n
      simp only [tuple_size] at h
      simp [tuple_element, tuple_size, h]

theorem conversions_size {Ss Ds : List Type} (cs : conversions Ss Ds) :
    tuple_size Ss = tuple_size Ds := by
  induction cs with
  | nil => rfl
  | cons c cs ih =>
    simp only [tuple_size, List.length_cons] at ih ⊢
    rw [ih]

theorem get_construct_from {Ss Ds : List Type} (cs : conversions Ss Ds) (t : tuple Ss)
    (i : Nat) (hs : (tuple_element i Ss).isSome) (hd : (tuple_element i Ds).isSome) :
    get i (tuple.construct_from cs t) hd = (cs.position i hs hd).init (get i t hs) := by
  induction cs generalizing i with
  | nil => cases i <;> simp [tuple_element] at hs
  | cons c cs ih =>
    cases t with
    | cons m_head inherited =>
      cases i with
      | zero => rfl
      | succ n => exact ih inherited n hs hd

theorem get_operator_assign {Ss Ds : List Type} (cs : conversions Ss Ds) (u : tuple Ds)
    (t : tuple Ss) (i : Nat) (hs : (tuple_element i Ss).isSome)
    (hd : (tuple_element i Ds).isSome) :
    get i (tuple.operator_assign cs u t) hd
      = (cs.position i hs hd).assign (get i u hd) (get i t hs) := by
  induction cs generalizing i with
  | nil => cases i <;> simp [tuple_element] at hs
  | cons c cs ih =>
    cases t with
    | cons m_head inherited =>
      cases u with
      | cons u_head u_inherited =>
        cases i with
        | zero => rfl
        | succ n => exact ih u_inherited inherited n hs hd

theorem position_value_semantic {Ss Ds : List Type} (cs : conversions Ss Ds)
    (hv : cs.value_semantic) (i : Nat) (hs : (tuple_element i Ss).isSome)
    (hd : (tuple_element i Ds).isSome) (d : tuple.element i Ds hd) (s : tuple.element i Ss hs) :
    (cs.position i hs hd).assign d s = (cs.position i hs hd).init s := by
  induction cs generalizing i with
  | nil => cases i <;> simp [tuple_element] at hs
  | cons c cs ih =>
    cases i with
    | zero => exact hv.1 d s
    | succ n => exact ih hv.2 n hs hd d s

theorem operator_assign_construct_from {Ss Ds : List Type} (cs : conversions Ss Ds)
    (hv : cs.value_semantic) (u : tuple Ds) (t : tuple Ss) :
    tuple.operator_assign cs u t = tuple.construct_from cs t := by
  induction cs with
  | nil => cases u; rfl
  | cons c cs ih =>
    cases t with
    | cons m_head inherited =>
      cases u with
      | cons u_head u_inherited =>
        simp only [tuple.operator_assign, tuple.construct_from, tuple.head, tuple.tail]
        rw [hv.1, ih hv.2]

theorem get_construct (Types : List Type)
    (v : (i : Nat) → (h : (tuple_element i Types).isSome) → tuple.element i Types h)
    (Index : Nat) (h : (tuple_element Index Types).isSome) :
    get Index (tuple.construct Types v) h = v Index h := by
  induction Types generalizing Index with
  | nil => cases Index <;> simp [tuple_element] at h
  | cons Head Tail ih =>
    cases Index with
    | zero => rfl
    | succ n => exact ih (fun i h => v (i + 1) h) n h

/-- C9: on a tuple constructed directly from the values `v 0, ..., v (k - 1)`, one
per declared element type, `get<Index>` returns `v Index` for every `Index < k`;
on any non-empty tuple `get<0>` is the head and `get<n + 1>` is `get<n>` of the
tail. -/
theorem C9_get_returns_element (Types : List Type)
    (v : (i : Nat) → (h : (tuple_element i Types).isSome) → tuple.element i Types h)
    (Index : Nat) (hlt : Index < tuple_size Types) :
    get Index (tuple.construct Types v) ((tuple_element_isSome Types Index).mpr hlt)
      = v Index ((tuple_element_isSome Types Index).mpr hlt) ∧
    (∀ (Head : Type) (Tail : List Type) (t : tuple (Head :: Tail)),
      get 0 t rfl = t.head ∧
      ∀ (n : Nat) (h : (tuple_element (n + 1) (Head :: Tail)).isSome),
        get (n + 1) t h = get n t.tail h) :=
  ⟨get_construct Types v Index _, fun _ _ _ => ⟨rfl, fun _ _ => rfl⟩⟩

/-- The claim C9 on `t3a` of `main.cpp`: `get<0>` is 1, `get<1>` is the value of
`3.14159f`, `get<2>` is the string "Hello, world!". -/
theorem C9_get_returns_element_witness :
    get 0 t3a rfl = (1 : Int) ∧ get 1 t3a rfl = (823549 / 262144 : Rat) ∧
    get 2 t3a rfl = "Hello, world!".toList :=
  ⟨(C9_get_returns_element t3a_types t3a_values 0 (by decide)).1,
   (C9_get_returns_element t3a_types t3a_values 1 (by decide)).1,
   (C9_get_returns_element t3a_types t3a_values 2 (by decide)).1⟩

/-- C10: for a source tuple `t` and a destination tuple type of the same arity
whose element types are convertible from the corresponding source types, the
converting construction `u(t)` and the assignment `u = t` both make every
position `i` of `u` the conversion of position `i` of `t`; hence `u = t` right
after constructing `u` from `t` leaves `u` unchanged. -/
theorem C10_elementwise_conversion {Ss Ds : List Type} (cs : conversions Ss Ds)
    (hv : cs.value_semantic) (t : tuple Ss) (u : tuple Ds) :
    tuple_size Ss = tuple_size Ds ∧
    (∀ (i : Nat) (hs : i < tuple_size Ss) (hd : i < tuple_size Ds),
      get i (tuple.construct_from cs t) ((tuple_element_isSome Ds i).mpr hd)
        = (cs.position i ((tuple_element_isSome Ss i).mpr hs)
            ((tuple_element_isSome Ds i).mpr hd)).init
            (get i t ((tuple_element_isSome Ss i).mpr hs))) ∧
    (∀ (i : Nat) (hs : i < tuple_size Ss) (hd : i < tuple_size Ds),
      get i (tuple.operator_assign cs u t) ((tuple_element_isSome Ds i).mpr hd)
        = (cs.position i ((tuple_element_isSome Ss i).mpr hs)
            ((tuple_element_isSome Ds i).mpr hd)).init
            (get i t ((tuple_element_isSome Ss i).mpr hs))) ∧
    tuple.operator_assign cs (tuple.construct_from cs t) t = tuple.construct_from cs t := by
  refine ⟨conversions_size cs, ?_, ?_, operator_assign_construct_from cs hv _ t⟩
  · intro i hs hd
    exact get_construct_from cs t i _ _
  · intro i hs hd
    rw [get_operator_assign cs u t i ((tuple_element_isSome Ss i).mpr hs)]
    exact position_value_semantic cs hv i _ _ _ _

/-- The claim C10 on `t3a` and `t3b` of `main.cpp`: `t3b(t3a)` holds 1, the value
of `3.14159f` and the string "Hello, world!", and `t3b = t3a` leaves it so. -/
theorem C10_elementwise_conversion_witness :
    t3b_conversions.value_semantic ∧
    get 0 t3b rfl = (1 : Int) ∧ get 1 t3b rfl = (823549 / 262144 : Rat) ∧
    get 2 t3b rfl = String.mk "Hello, world!".toList ∧
    tuple.operator_assign t3b_conversions t3b t3a = t3b :=
  have hv : t3b_conversions.value_semantic :=
    ⟨fun _ _ => rfl, fun _ _ => rfl, fun _ _ => rfl, trivial⟩
  ⟨hv,
   (C10_elementwise_conversion t3b_conversions hv t3a t3b).2.1 0 (by decide) (by decide),
   (C10_elementwise_conversion t3b_conversions hv t3a t3b).2.1 1 (by decide) (by decide),
   (C10_elementwise_conversion t3b_conversions hv t3a t3b).2.1 2 (by decide) (by decide),
   (C10_elementwise_conversion t3b_conversions hv t3a t3b).2.2.2⟩

/-! ## Theorems: metafunctions and `make_tuple` -/

theorem tuple_element_eq_getElem? {α : Type u} (Types : List α) (i : Nat) :
    tuple_element i Types = Types[i]? := by
  induction Types generalizing i with
  | nil => cases i <;> simp [tuple_element]
  | cons Head Tail ih =>
    cases i with
    | zero => simp [tuple_element]
    | succ n => simp [tuple_element, ih n]

/-- C11 (fails as stated): in a const `tuple<int&>` the return type of `get<0>`
is `int&`, a mutable reference and not a read-only one; in a mutable
`tuple<const double&>` it is `const double&`, read-only and not mutable. -/
theorem C11_reference_elements_counterexample :
    ¬ (∀ (Types : List CppType) (Index : Nat) (R Rc : CppType),
        get_return_type Index Types = some R →
        get_return_type_const Index Types = some Rc →
        R.is_mutable_reference = true ∧ Rc.is_const_reference = true) ∧
    get_return_type_const 0 [.lref (.named "int")] = some (.lref (.named "int")) ∧
    (CppType.lref (.named "int")).is_const_reference = false ∧
    get_return_type 0 [.lref (.const (.named "double"))]
      = some (.lref (.const (.named "double"))) ∧
    (CppType.lref (.const (.named "double"))).is_mutable_reference = false := by
  refine ⟨?_, rfl, rfl, rfl, rfl⟩
  intro h
  have h0 := (h [.lref (.named "int")] 0 (.lref (.named "int")) (.lref (.named "int"))
    rfl rfl).2
  simp [CppType.is_const_reference, CppType.is_const_qualified] at h0

/-- C11 (amended): for an in-range `Index` with element type `E`, `get<Index>`
returns `add_reference<E>::type` on a mutable tuple and
`add_const_reference<E>::type` on a const tuple. For `E` neither const nor a
reference these are `E&`, mutable, and `const E&`, read-only. For a reference
element `E = U&` both are `U&`, so the reference is mutable or read-only as `U`
is, whatever the tuple argument; for a const element `E = const V` both are
`const V&`. -/
theorem C11_get_reference_type (Types : List CppType) (Index : Nat) (E : CppType)
    (hE : tuple_element Index Types = some E) :
    get_return_type Index Types = some (add_reference E) ∧
    get_return_type_const Index Types = some (add_const_reference E) ∧
    (E.is_reference = false → E.is_const_qualified = false →
      add_reference E = .lref E ∧ (add_reference E).is_mutable_reference = true ∧
      add_const_reference E = .lref (.const E) ∧
      (add_const_reference E).is_const_reference = true) ∧
    (∀ U, E = .lref U →
      add_reference E = .lref U ∧ add_const_reference E = .lref U ∧
      (CppType.lref U).is_mutable_reference = !U.is_const_qualified ∧
      (CppType.lref U).is_const_reference = U.is_const_qualified) ∧
    (∀ V, E = .const V →
      add_reference E = .lref (.const V) ∧ add_const_reference E = .lref (.const V) ∧
      (CppType.lref (.const V)).is_const_reference = true) := by
  refine ⟨?_, ?_, ?_, ?_, ?_⟩
  · simp [get_return_type, hE]
  · simp [get_return_type_const, hE]
  · intro hr hc
    cases E <;>
      simp_all [add_reference, add_const_reference, CppType.add_lvalue_ref,
        CppType.add_const_qualifier, CppType.is_reference, CppType.is_const_qualified,
        CppType.is_mutable_reference, CppType.is_const_reference]
  · intro U hU
    subst hU
    exact ⟨rfl, rfl, rfl, rfl⟩
  · intro V hV
    subst hV
    exact ⟨rfl, rfl, rfl⟩

/-- The amended claim C11 on `tuple<int, int&, const double&>`: element 0 gives
`int&` and `const int&`, element 1 gives `int&` for both tuple arguments. -/
theorem C11_get_reference_type_witness :
    get_return_type 0 mixed_types = some (.lref (.named "int")) ∧
    get_return_type_const 0 mixed_types = some (.lref (.const (.named "int"))) ∧
    get_return_type_const 1 mixed_types = some (.lref (.named "int")) ∧
    get_return_type 2 mixed_types = some (.lref (.const (.named "double"))) :=
  ⟨(C11_get_reference_type mixed_types 0 (.named "int") rfl).1,
   (C11_get_reference_type mixed_types 0 (.named "int") rfl).2.1,
   (C11_get_reference_type mixed_types 1 (.lref (.named "int")) rfl).2.1,
   (C11_get_reference_type mixed_types 2 (.lref (.const (.named "double"))) rfl).1⟩

/-- C13: `tuple_size<tuple<Types...>>` is the number `k` of types, and
`tuple_element<Index, tuple<Types...>>` has a member `type` exactly when
`Index < k`, which then is the `Index`-th type; for `Index >= k` there is none,
so neither overload of `get<Index>` has a return type and no instance of `get`
exists: an out-of-range index is a compile-time error, `get` itself has no
failing path. -/
theorem C13_tuple_element_defined {α : Type u} (Types : List α) (Index : Nat) :
    tuple_size Types = Types.length ∧
    ((tuple_element Index Types).isSome = true ↔ Index < tuple_size Types) ∧
    tuple_element Index Types = Types[Index]? ∧
    (∀ h : Index < Types.length, tuple_element Index Types = some (Types.get ⟨Index, h⟩)) ∧
    (tuple_size Types ≤ Index → tuple_element Index Types = none) ∧
    (∀ Ts : List CppType, tuple_size Ts ≤ Index →
      get_return_type Index Ts = none ∧ get_return_type_const Index Ts = none) ∧
    (∀ Ts : List Type, tuple_size Ts ≤ Index →
      ¬ (tuple_element Index Ts).isSome = true) := by
  have hnone : ∀ {β : Type u} (Ts : List β), tuple_size Ts ≤ Index →
      tuple_element Index Ts = none := by
    intro β Ts hle
    rw [tuple_element_eq_getElem?]
    exact List.getElem?_eq_none hle
  have hnone1 : ∀ (Ts : List Type), tuple_size Ts ≤ Index →
      tuple_element Index Ts = none := by
    intro Ts hle
    rw [tuple_element_eq_getElem?]
    exact List.getElem?_eq_none hle
  have hnone0 : ∀ (Ts : List CppType), tuple_size Ts ≤ Index →
      tuple_element Index Ts = none := by
    intro Ts hle
    rw [tuple_element_eq_getElem?]
    exact List.getElem?_eq_none hle
  refine ⟨rfl, tuple_element_isSome Types Index, tuple_element_eq_getElem? Types Index,
    ?_, hnone Types, ?_, ?_⟩
  · intro h
    rw [tuple_element_eq_getElem?]
    exact List.getElem?_eq_getElem h
  · intro Ts hle
    simp [get_return_type, get_return_type_const, hnone0 Ts hle]
  · intro Ts hle
    simp [hnone1 Ts hle]

/-- The claim C13 on `tuple<int, int&, const double&>`: the size is 3, element 1
is `int&`, and there is no element 3. -/
theorem C13_tuple_element_defined_witness :
    tuple_size mixed_types = 3 ∧
    tuple_element 1 mixed_types = some (.lref (.named "int")) ∧
    tuple_element 3 mixed_types = none :=
  ⟨(C13_tuple_element_defined mixed_types 0).1,
   (C13_tuple_element_defined mixed_types 1).2.2.2.1 (by decide),
   (C13_tuple_element_defined mixed_types 3).2.2.2.2.1 (by decide)⟩


/-! ## Theorems: `type_list` -/

theorem type_at_index_zero_cons (Head : CppType) (Tail : List CppType) :
    type_at_index 0 [.type_list (Head :: Tail)] = some Head := by
  rw [type_at_index]
  simp [match_type_list]

theorem type_at_index_succ_cons (n : Nat) (Head : CppType) (Tail : List CppType) :
    type_at_index (n + 1) [.type_list (Head :: Tail)] = type_at_index n [.type_list Tail] := by
  rw [type_at_index]
  simp [match_type_list]

theorem type_at_index_nil (n : Nat) :
    type_at_index n [.type_list []] = type_at_index n [.type_list [.type_list []]] := by
  rw [type_at_index]
  simp [match_type_list]

theorem type_at_index_in_range (Types : List CppType) (Index : Nat)
    (h : Index < Types.length) :
    type_at_index Index [.type_list Types] = Types[Index]? := by
  induction Types generalizing Index with
  | nil => simp at h
  | cons Head Tail ih =>
    cases Index with
    | zero => simp [type_at_index_zero_cons]
    | succ n =>
      rw [type_at_index_succ_cons, ih n (by simpa using h)]
      simp

/-- On the empty list every index yields `type_list<>`: the primary template
turns `type_at_index<Index, type_list<>>` into
`type_at_index<Index, type_list<type_list<>>>`. -/
theorem type_at_index_empty_list (Index : Nat) :
    type_at_index Index [.type_list []] = some (.type_list []) := by
  induction Index with
  | zero => rw [type_at_index_nil, type_at_index_zero_cons]
  | succ n ih => rw [type_at_index_nil, type_at_index_succ_cons, ih]

/-- At or beyond the length of the list, `type_at_index` yields `type_list<>`. -/
theorem type_at_index_out_of_range (Types : List CppType) (Index : Nat)
    (h : Types.length ≤ Index) :
    type_at_index Index [.type_list Types] = some (.type_list []) := by
  induction Types generalizing Index with
  | nil => exact type_at_index_empty_list Index
  | cons Head Tail ih =>
    cases Index with
    | zero => simp at h
    | succ n =>
      rw [type_at_index_succ_cons]
      exact ih n (by simpa using h)

theorem type_list_size_type_list (Types : List CppType) :
    type_list_size [.type_list Types] = Types.length := by
  induction Types with
  | nil =>
    rw [type_list_size]
    simp [match_type_list]
  | cons Head Tail ih =>
    rw [type_list_size]
    simp [match_type_list, ih]
    omega

/-- C14 (the code departs from the claim): `type_at_index<3, type_list<A, B, C>>`
and `type_at_index<0, type_list<>>` are well-formed and have the member
`result`, which is `type_list<>`. -/
theorem C14_out_of_range_index_has_result :
    type_at_index 3 [.type_list [.named "A", .named "B", .named "C"]]
      = some (.type_list []) ∧
    type_at_index 0 [.type_list []] = some (.type_list []) ∧
    type_at_index 7 [.type_list []] = some (.type_list []) :=
  ⟨type_at_index_out_of_range _ 3 (by decide), type_at_index_empty_list 0,
   type_at_index_empty_list 7⟩

/-- C15: for `type_list<T_0, ..., T_(n-1)>` and `Index < n`,
`type_at_index<Index, list>::result` is `T_Index`: index 0 yields the head and
each further index strips one leading type; `type_list_size` of the list is `n`. -/
theorem C15_type_at_index_in_range (Types : List CppType) (Index : Nat)
    (h : Index < Types.length) :
    type_at_index Index [.type_list Types] = some (Types.get ⟨Index, h⟩) ∧
    type_list_size [.type_list Types] = Types.length ∧
    (∀ (Head : CppType) (Tail : List CppType),
      type_at_index 0 [.type_list (Head :: Tail)] = some Head ∧
      ∀ n, type_at_index (n + 1) [.type_list (Head :: Tail)]
        = type_at_index n [.type_list Tail]) := by
  refine ⟨?_, type_list_size_type_list Types, fun Head Tail =>
    ⟨type_at_index_zero_cons Head Tail, fun n => type_at_index_succ_cons n Head Tail⟩⟩
  rw [type_at_index_in_range Types Index h]
  exact List.getElem?_eq_getElem h

/-- The claim C15 on `type_list<A, B, C>`: index 1 is `B` and the size is 3. -/
theorem C15_type_at_index_in_range_witness :
    type_at_index 1 [.type_list [.named "A", .named "B", .named "C"]] = some (.named "B") ∧
    type_list_size [.type_list [.named "A", .named "B", .named "C"]] = 3 :=
  ⟨(C15_type_at_index_in_range [.named "A", .named "B", .named "C"] 1 (by decide)).1,
   (C15_type_at_index_in_range [.named "A", .named "B", .named "C"] 1 (by decide)).2.1⟩

theorem prepend_type_list_second (T : CppType) (Types : List CppType)
    (hT : T.is_type_list = false) :
    prepend [T, .type_list Types] = some (.type_list (T :: Types)) := by
  cases T <;> simp_all [prepend, CppType.is_type_list]

theorem prepend_type_list_first (T : CppType) (Types : List CppType)
    (hT : T.is_type_list = false) :
    prepend [.type_list Types, T] = some (.type_list (Types ++ [T])) := by
  cases T <;> simp_all [prepend, CppType.is_type_list]

theorem append_type_list_second (T : CppType) (Types : List CppType)
    (hT : T.is_type_list = false) :
    append [T, .type_list Types] = some (.type_list (Types ++ [T])) := by
  cases T <;> simp_all [append, CppType.is_type_list]

theorem append_type_list_first (T : CppType) (Types : List CppType)
    (hT : T.is_type_list = false) :
    append [.type_list Types, T] = some (.type_list (T :: Types)) := by
  cases T <;> simp_all [append, CppType.is_type_list]

/-- C16: for a type `T` that is not a `type_list` and `L = type_list<Ts...>`,
`prepend<T, L>::result` is `type_list<T, Ts...>` and `append<T, L>::result` is
`type_list<Ts..., T>`. Each is one element longer than `L`, has `T` at index 0
(prepend) or at the last index (append), and has the types of `L` in their
order at the other indices. -/
theorem C16_prepend_append (T : CppType) (Types : List CppType)
    (hT : T.is_type_list = false) :
    prepend [T, .type_list Types] = some (.type_list (T :: Types)) ∧
    append [T, .type_list Types] = some (.type_list (Types ++ [T])) ∧
    type_list_size [.type_list (T :: Types)] = type_list_size [.type_list Types] + 1 ∧
    type_list_size [.type_list (Types ++ [T])] = type_list_size [.type_list Types] + 1 ∧
    type_at_index 0 [.type_list (T :: Types)] = some T ∧
    type_at_index (type_list_size [.type_list Types]) [.type_list (Types ++ [T])] = some T ∧
    (∀ i, i < type_list_size [.type_list Types] →
      type_at_index (i + 1) [.type_list (T :: Types)] = type_at_index i [.type_list Types] ∧
      type_at_index i [.type_list (Types ++ [T])] = type_at_index i [.type_list Types]) := by
  refine ⟨prepend_type_list_second T Types hT, append_type_list_second T Types hT, ?_, ?_,
    type_at_index_zero_cons T Types, ?_, ?_⟩
  · simp [type_list_size_type_list]
  · simp [type_list_size_type_list]
  · rw [type_list_size_type_list, type_at_index_in_range _ _ (by simp)]
    simp
  · intro i hi
    rw [type_list_size_type_list] at hi
    refine ⟨type_at_index_succ_cons i T Types, ?_⟩
    rw [type_at_index_in_range _ _ (by simp; omega), type_at_index_in_range _ _ hi]
    exact List.getElem?_append_left hi

/-- The claim C16 on `T = X` and `L = type_list<A, B>`. -/
theorem C16_prepend_append_witness :
    prepend [.named "X", .type_list [.named "A", .named "B"]]
      = some (.type_list [.named "X", .named "A", .named "B"]) ∧
    append [.named "X", .type_list [.named "A", .named "B"]]
      = some (.type_list [.named "A", .named "B", .named "X"]) :=
  ⟨(C16_prepend_append (.named "X") [.named "A", .named "B"] rfl).1,
   (C16_prepend_append (.named "X") [.named "A", .named "B"] rfl).2.1⟩

/-- C20: with the list in the first argument position the placement is the
other way round: for `T` not a `type_list` and `L = type_list<Ts...>`,
`prepend<L, T>::result` is `type_list<Ts..., T>`, the same as
`append<T, L>::result`, and `append<L, T>::result` is `type_list<T, Ts...>`, the
same as `prepend<T, L>::result`. -/
theorem C20_swapped_arguments (T : CppType) (Types : List CppType)
    (hT : T.is_type_list = false) :
    prepend [.type_list Types, T] = some (.type_list (Types ++ [T])) ∧
    prepend [.type_list Types, T] = append [T, .type_list Types] ∧
    append [.type_list Types, T] = some (.type_list (T :: Types)) ∧
    append [.type_list Types, T] = prepend [T, .type_list Types] := by
  refine ⟨prepend_type_list_first T Types hT, ?_, append_type_list_first T Types hT, ?_⟩
  · rw [prepend_type_list_first T Types hT, append_type_list_second T Types hT]
  · rw [append_type_list_first T Types hT, prepend_type_list_second T Types hT]

/-- The claim C20 on `T = X` and `L = type_list<A, B>`. -/
theorem C20_swapped_arguments_witness :
    prepend [.type_list [.named "A", .named "B"], .named "X"]
      = some (.type_list [.named "A", .named "B", .named "X"]) ∧
    append [.type_list [.named "A", .named "B"], .named "X"]
      = some (.type_list [.named "X", .named "A", .named "B"]) :=
  ⟨(C20_swapped_arguments (.named "X") [.named "A", .named "B"] rfl).1,
   (C20_swapped_arguments (.named "X") [.named "A", .named "B"] rfl).2.2.1⟩

/-! ## Theorems: `add_reference` and `add_const_reference` -/

/-- C17 (fails as stated): for the rvalue reference `int&&` both
`add_reference<int&&>::type` and `add_const_reference<int&&>::type` are `int&`,
not `int&&`. -/
theorem C17_rvalue_reference_counterexample :
    add_reference (.rref (.named "int")) = .lref (.named "int") ∧
    add_const_reference (.rref (.named "int")) = .lref (.named "int") ∧
    add_reference (.rref (.named "int")) ≠ .rref (.named "int") ∧
    add_const_reference (.rref (.named "int")) ≠ .rref (.named "int") := by
  refine ⟨rfl, rfl, ?_, ?_⟩
  · intro h
    cases h
  · intro h
    cases h

/-- C17 (amended): for every lvalue reference type `R = U&`, whether `U` is
const or not, `add_reference<R>::type` and `add_const_reference<R>::type` are
`R`, so `add_const_reference` does not force const; for an rvalue reference
`U&&` both are the lvalue reference `U&`. -/
theorem C17_reference_types (U : CppType) :
    add_reference (.lref U) = .lref U ∧
    add_const_reference (.lref U) = .lref U ∧
    add_reference (.rref U) = .lref U ∧
    add_const_reference (.rref U) = .lref U :=
  ⟨rfl, rfl, rfl, rfl⟩


/-! ## Theorems: `remove_const` and `is_const` -/

/-- C21 (fails as stated): for the reference to const `const int&`,
`remove_const` leaves the type as it is and `is_const` of the result is true;
the same holds for `const int&&`. -/
theorem C21_reference_to_const_counterexample :
    ¬ (∀ U : CppType, is_const (remove_const (.lref (.const U))) = false) ∧
    remove_const (.lref (.const (.named "int"))) = .lref (.const (.named "int")) ∧
    is_const (remove_const (.lref (.const (.named "int")))) = true ∧
    is_const (remove_const (.rref (.const (.named "int")))) = true := by
  refine ⟨?_, rfl, rfl, rfl⟩
  intro h
  have h0 := h (.named "int")
  simp [remove_const, is_const] at h0

/-- C21 (amended): `is_const<remove_const<T>::type>::value` is false for every
type `T` that is not a reference to a const-qualified type, that is for a plain
type, for `const V`, and for `U&` and `U&&` with `U` not const; for `const U&`
and `const U&&` the type is left unchanged by `remove_const` and the value is
true. The type `const V` is taken as the language forms it, with `V` neither
const nor a reference. -/
theorem C21_remove_const_is_const (T : CppType)
    (hT : ∀ V, T = .const V → V.is_const_qualified = false ∧ V.is_reference = false) :
    is_const (remove_const T) = T.is_const_reference ∧
    (T.is_const_reference = false → is_const (remove_const T) = false) ∧
    (T.is_reference = false → is_const (remove_const T) = false) ∧
    (∀ U, U.is_const_qualified = false →
      is_const (remove_const (.lref U)) = false ∧
      is_const (remove_const (.rref U)) = false) ∧
    (∀ U, remove_const (.lref (.const U)) = .lref (.const U) ∧
      is_const (remove_const (.lref (.const U))) = true ∧
      remove_const (.rref (.const U)) = .rref (.const U) ∧
      is_const (remove_const (.rref (.const U))) = true) := by
  have hmain : is_const (remove_const T) = T.is_const_reference := by
    cases T with
    | named n => rfl
    | type_list Ts => rfl
    | reference_wrapper W => rfl
    | const V =>
      obtain ⟨hc, hr⟩ := hT V rfl
      cases V <;>
        simp_all [remove_const, is_const, CppType.is_const_reference,
          CppType.is_const_qualified, CppType.is_reference]
    | lref U =>
      cases U <;>
        simp [remove_const, is_const, CppType.is_const_reference, CppType.is_const_qualified]
    | rref U =>
      cases U <;>
        simp [remove_const, is_const, CppType.is_const_reference, CppType.is_const_qualified]
  refine ⟨hmain, ?_, ?_, ?_, fun U => ⟨rfl, rfl, rfl, rfl⟩⟩
  · intro h
    rw [hmain, h]
  · intro h
    rw [hmain]
    cases T <;> simp_all [CppType.is_const_reference, CppType.is_reference]
  · intro U hU
    cases U <;>
      simp_all [remove_const, is_const, CppType.is_const_qualified]

/-- The amended claim C21 on `const int`, `int&` and `const int&`: the value is
false for the first two and true for the third. -/
theorem C21_remove_const_is_const_witness :
    is_const (remove_const (.const (.named "int"))) = false ∧
    is_const (remove_const (.lref (.named "int"))) = false ∧
    is_const (remove_const (.lref (.const (.named "int")))) = true :=
  ⟨(C21_remove_const_is_const (.const (.named "int"))
      (fun V hV => by cases hV; exact ⟨rfl, rfl⟩)).2.2.1 rfl,
   (C21_remove_const_is_const (.lref (.named "int"))
      (fun V hV => by cases hV)).2.1 rfl,
   ((C21_remove_const_is_const (.lref (.const (.named "int")))
      (fun V hV => by cases hV)).2.2.2.2 (.named "int")).2.1⟩

end bc
